import Mathlib

/-!
# CA9500: register access layer of the xCA95xx I2C port expander driver

A shallow embedding of `SRC/ca9500.cpp` / `SRC/ca9500.hpp`.

* Machine integers are natural numbers; every assignment to a `uint8_t` field
  truncates with `% 256`, and the `int` intermediate values of the bit
  expressions are kept as 16-bit two's complement patterns (AVR `int`).
* The driver object is the structure `CA9500`; the `TwoWire` object behind
  `_i2cPort` is an explicit second state component, reached only through the
  five operations the driver calls (`beginTransmission`, `write`,
  `endTransmission`, `requestFrom`, `read`).
* Every member function is a function from the driver state and the bus state
  to its return value, the new driver state and the new bus state.
-/

namespace CA9500Driver

/-! ## Machine arithmetic -/

/-- Conversion of an `int` value to `uint8_t` (assignment to a `uint8_t` object). -/
def u8 (n : Nat) : Nat := n % 256

/-- Conversion of the `int` returned by `TwoWire::read` to `uint8_t`. -/
def intToU8 (i : Int) : Nat := (i % 256).toNat

/-- The `int` expression `x << n`, as a 16-bit pattern. -/
def shl (x n : Nat) : Nat := (x <<< n) % 65536

/-- The `int` expression `~x`, as a 16-bit two's complement pattern. -/
def bnot (x : Nat) : Nat := 65535 ^^^ (x % 65536)

/-- Conversion of an integer to `bool`: nonzero is `true`. -/
def toBool (n : Nat) : Bool := n != 0

/-! ## Constants -/

/-- Register address of the Input Port register (`enum` in `ca9500.hpp`). -/
def INPUT_PORT_REGISTER : Nat := 0x00
/-- Register address of the Output Port register. -/
def OUTPUT_PORT_REGISTER : Nat := 0x01
/-- Register address of the Polarity Inversion register. -/
def POLARITY_INVERSION_REGISTER : Nat := 0x02
/-- Register address of the Configuration register. -/
def CONFIGURATION_REGISTER : Nat := 0x03

/-- Modelled from the spec: the `Arduino.h` pin-mode constant `INPUT`, which is not
part of the sources; the AVR core value. -/
def INPUT : Nat := 0
/-- Modelled from the spec: the `Arduino.h` pin-mode constant `OUTPUT`, which is not
part of the sources; the AVR core value. -/
def OUTPUT : Nat := 1
/-- Modelled from the spec: the `Arduino.h` pin-mode constant `INPUT_PULLUP`, which is
not part of the sources; the AVR core value. -/
def INPUT_PULLUP : Nat := 2

/-! ## Driver state and bus interface -/

/-- The private fields of `class CA9500`, with the initialisers of `ca9500.hpp`.
`_inputValue` and `_deviceAddress` have no initialiser in the source. -/
structure CA9500 where
  _outputValue : Nat := 0xFF
  _inputValue : Nat
  _portMode : Nat := 0xFF
  _portInverted : Nat := 0
  _deviceAddress : Nat
  deriving DecidableEq, Repr

/-- The operations of the `TwoWire` object that the driver calls, over a bus
state `β`. `endTransmission` yields the status code, `requestFrom` the number
of bytes received, `read` the next received byte (an `int`). -/
structure TwoWire (β : Type) where
  beginTransmission : Nat → β → β
  write : Nat → β → β
  endTransmission : β → Nat × β
  requestFrom : Nat → Nat → β → Nat × β
  read : β → Int × β

/-- An array of eight `bool` behind a `bool *` argument. -/
abbrev BoolArray := Fin 8 → Bool

/-- The values taken by `bitPosition` in `for (bitPosition = 0; bitPosition < 8; bitPosition++)`. -/
def bitPositions : List (Fin 8) := [0, 1, 2, 3, 4, 5, 6, 7]

namespace CA9500

variable {β : Type}

/-- `CA9500::begin`. The port is the parameter `W` of every function. -/
def begin (W : TwoWire β) (address : Nat) (s : CA9500) (w : β) : Bool × CA9500 × β :=
  let s1 := { s with _deviceAddress := address }
  let w1 := W.beginTransmission s1._deviceAddress w
  let e := W.endTransmission w1
  if e.1 ≠ 0 then (false, s1, e.2) else (true, s1, e.2)

/-- `CA9500::hexAddress`. -/
def hexAddress (_W : TwoWire β) (address : Nat) (s : CA9500) (w : β) : Unit × CA9500 × β :=
  ((), { s with _deviceAddress := address }, w)

/-- `CA9500::hexCheck`. -/
def hexCheck (W : TwoWire β) (address : Nat) (s : CA9500) (w : β) : Bool × CA9500 × β :=
  let s1 := { s with _deviceAddress := address }
  let w1 := W.beginTransmission s1._deviceAddress w
  let e := W.endTransmission w1
  if e.1 ≠ 0 then (false, s1, e.2) else (true, s1, e.2)

/-- `CA9500::ping()`. -/
def ping (W : TwoWire β) (s : CA9500) (w : β) : Nat × CA9500 × β :=
  let w1 := W.beginTransmission s._deviceAddress w
  let e := W.endTransmission w1
  (e.1, s, e.2)

/-- `CA9500::ping(uint8_t address)`. -/
def ping_addr (W : TwoWire β) (address : Nat) (s : CA9500) (w : β) : Nat × CA9500 × β :=
  let s1 := { s with _deviceAddress := address }
  let w1 := W.beginTransmission s1._deviceAddress w
  let e := W.endTransmission w1
  (e.1, s1, e.2)

/-- `CA9500::readRegister`. -/
def readRegister (W : TwoWire β) (addr : Nat) (s : CA9500) (w : β) : Nat × CA9500 × β :=
  let w1 := W.beginTransmission s._deviceAddress w
  let w2 := W.write addr w1
  let w3 := (W.endTransmission w2).2
  let r := W.requestFrom s._deviceAddress 1 w3
  if r.1 ≠ 0 then
    let v := W.read r.2
    (intToU8 v.1, s, v.2)
  else
    (0, s, r.2)

/-- `CA9500::writeRegister`. -/
def writeRegister (W : TwoWire β) (addr val : Nat) (s : CA9500) (w : β) : Bool × CA9500 × β :=
  let w1 := W.beginTransmission s._deviceAddress w
  let w2 := W.write addr w1
  let w3 := W.write val w2
  let e := W.endTransmission w3
  if e.1 ≠ 0 then (false, s, e.2) else (true, s, e.2)

/-- `CA9500::resetRegisters`. -/
def resetRegisters (W : TwoWire β) (s : CA9500) (w : β) : Nat × CA9500 × β :=
  let w1 := W.beginTransmission s._deviceAddress w
  let w2 := W.write CONFIGURATION_REGISTER w1
  let w3 := W.write 0xFF w2
  let w4 := W.write POLARITY_INVERSION_REGISTER w3
  let w5 := W.write 0x00 w4
  let w6 := W.write OUTPUT_PORT_REGISTER w5
  let w7 := W.write 0x00 w6
  let e := W.endTransmission w7
  (e.1, s, e.2)

/-- `CA9500::SoftReset()`. -/
def SoftReset (W : TwoWire β) (s : CA9500) (w : β) : Nat × CA9500 × β :=
  resetRegisters W s w

/-- `CA9500::SoftReset(uint8_t address)`. -/
def SoftReset_addr (W : TwoWire β) (address : Nat) (s : CA9500) (w : β) : Nat × CA9500 × β :=
  resetRegisters W { s with _deviceAddress := address } w

/-- `CA9500::digitalRead(uint8_t portBIT)`. -/
def digitalRead (W : TwoWire β) (portBIT : Nat) (s : CA9500) (w : β) : Bool × CA9500 × β :=
  let r := readRegister W INPUT_PORT_REGISTER s w
  let s1 := { r.2.1 with _inputValue := r.1 }
  (toBool (s1._inputValue &&& shl 1 portBIT), s1, r.2.2)

/-- `CA9500::digitalRead(uint8_t portBIT, uint8_t address)`. -/
def digitalRead_addr (W : TwoWire β) (portBIT address : Nat) (s : CA9500) (w : β) :
    Bool × CA9500 × β :=
  let s0 := { s with _deviceAddress := address }
  let r := readRegister W INPUT_PORT_REGISTER s0 w
  let s1 := { r.2.1 with _inputValue := r.1 }
  (toBool (s1._inputValue &&& shl 1 portBIT), s1, r.2.2)

/-- `CA9500::digitalReadPort`: the loop stores one `bool` per bit position. -/
def digitalReadPort (W : TwoWire β) (inputValue : BoolArray) (s : CA9500) (w : β) :
    (Nat × BoolArray) × CA9500 × β :=
  let r := readRegister W INPUT_PORT_REGISTER s w
  let s1 := { r.2.1 with _inputValue := r.1 }
  let arr := bitPositions.foldl
    (fun a bitPosition =>
      Function.update a bitPosition (toBool (s1._inputValue &&& shl 1 bitPosition.val)))
    inputValue
  ((s1._inputValue, arr), s1, r.2.2)

/-- `CA9500::digitalWrite(uint8_t portBIT, bool bValue)`. -/
def digitalWrite (W : TwoWire β) (portBIT : Nat) (bValue : Bool) (s : CA9500) (w : β) :
    Bool × CA9500 × β :=
  let r := readRegister W INPUT_PORT_REGISTER s w
  let s1 := { r.2.1 with _outputValue := r.1 }
  let s2 := { s1 with _outputValue := u8 (s1._outputValue &&& bnot (shl 1 portBIT)) }
  let s3 := { s2 with _outputValue := u8 (s2._outputValue ||| shl bValue.toNat portBIT) }
  writeRegister W OUTPUT_PORT_REGISTER s3._outputValue s3 r.2.2

/-- `CA9500::digitalWrite(uint8_t portBIT, bool bValue, uint8_t address)`. -/
def digitalWrite_addr (W : TwoWire β) (portBIT : Nat) (bValue : Bool) (address : Nat)
    (s : CA9500) (w : β) : Bool × CA9500 × β :=
  let s0 := { s with _deviceAddress := address }
  let r := readRegister W INPUT_PORT_REGISTER s0 w
  let s1 := { r.2.1 with _outputValue := r.1 }
  let s2 := { s1 with _outputValue := u8 (s1._outputValue &&& bnot (shl 1 portBIT)) }
  let s3 := { s2 with _outputValue := u8 (s2._outputValue ||| shl bValue.toNat portBIT) }
  writeRegister W OUTPUT_PORT_REGISTER s3._outputValue s3 r.2.2

/-- `CA9500::digitalWrite(bool *outputValue)`. -/
def digitalWrite_arr (W : TwoWire β) (outputValue : BoolArray) (s : CA9500) (w : β) :
    Bool × CA9500 × β :=
  let s1 := { s with _outputValue := 0 }
  let s2 := bitPositions.foldl
    (fun (t : CA9500) bitPosition =>
      { t with _outputValue := u8 (t._outputValue ||| shl (outputValue bitPosition).toNat bitPosition.val) })
    s1
  writeRegister W OUTPUT_PORT_REGISTER s2._outputValue s2 w

/-- `CA9500::invertPin(uint8_t portBIT, bool bIsInverted)`. -/
def invertPin (W : TwoWire β) (portBIT : Nat) (bIsInverted : Bool) (s : CA9500) (w : β) :
    Bool × CA9500 × β :=
  let s1 := { s with _portInverted := u8 (s._portInverted &&& bnot (shl 1 portBIT)) }
  let s2 := { s1 with _portInverted := u8 (s1._portInverted ||| shl bIsInverted.toNat portBIT) }
  writeRegister W POLARITY_INVERSION_REGISTER s2._portInverted s2 w

/-- `CA9500::invertPin(uint8_t portBIT, bool bIsInverted, uint8_t address)`. -/
def invertPin_addr (W : TwoWire β) (portBIT : Nat) (bIsInverted : Bool) (address : Nat)
    (s : CA9500) (w : β) : Bool × CA9500 × β :=
  let s0 := { s with _deviceAddress := address }
  let s1 := { s0 with _portInverted := u8 (s0._portInverted &&& bnot (shl 1 portBIT)) }
  let s2 := { s1 with _portInverted := u8 (s1._portInverted ||| shl bIsInverted.toNat portBIT) }
  writeRegister W POLARITY_INVERSION_REGISTER s2._portInverted s2 w

/-- `CA9500::invertPin(bool *bIsInverted)`. -/
def invertPin_arr (W : TwoWire β) (bIsInverted : BoolArray) (s : CA9500) (w : β) :
    Bool × CA9500 × β :=
  let s1 := { s with _portInverted := 0 }
  let s2 := bitPositions.foldl
    (fun (t : CA9500) bitPosition =>
      { t with _portInverted := u8 (t._portInverted ||| shl (bIsInverted bitPosition).toNat bitPosition.val) })
    s1
  writeRegister W POLARITY_INVERSION_REGISTER s2._portInverted s2 w

/-- `CA9500::isPinInverted(uint8_t portBIT)`. -/
def isPinInverted (W : TwoWire β) (portBIT : Nat) (s : CA9500) (w : β) : Bool × CA9500 × β :=
  let r := readRegister W POLARITY_INVERSION_REGISTER s w
  let s1 := { r.2.1 with _inputValue := r.1 }
  (toBool (s1._inputValue &&& shl 1 portBIT), s1, r.2.2)

/-- `CA9500::isPinInverted(uint8_t portBIT, uint8_t address)`. -/
def isPinInverted_addr (W : TwoWire β) (portBIT address : Nat) (s : CA9500) (w : β) :
    Bool × CA9500 × β :=
  let s0 := { s with _deviceAddress := address }
  let r := readRegister W POLARITY_INVERSION_REGISTER s0 w
  let s1 := { r.2.1 with _inputValue := r.1 }
  (toBool (s1._inputValue &&& shl 1 portBIT), s1, r.2.2)

/-- The statement `if (bDirection == INPUT_PULLUP) bDirection = INPUT;` on a `bool`
object: the comparison promotes the `bool` to `int`, the assignment converts
`INPUT` to `bool`. -/
def recastPullup (bDirection : Bool) : Bool :=
  if bDirection.toNat = INPUT_PULLUP then toBool INPUT else bDirection

/-- `CA9500::pinMode(uint8_t portBIT, bool bDirection)`. -/
def pinMode (W : TwoWire β) (portBIT : Nat) (bDirection : Bool) (s : CA9500) (w : β) :
    Bool × CA9500 × β :=
  let bDirection := recastPullup bDirection
  let bDirection := !bDirection
  let s1 := { s with _portMode := u8 (s._portMode &&& bnot (shl 1 portBIT)) }
  let s2 := { s1 with _portMode := u8 (s1._portMode ||| shl bDirection.toNat portBIT) }
  writeRegister W CONFIGURATION_REGISTER s2._portMode s2 w

/-- `CA9500::pinMode(uint8_t portBIT, bool bDirection, uint8_t address)`. -/
def pinMode_addr (W : TwoWire β) (portBIT : Nat) (bDirection : Bool) (address : Nat)
    (s : CA9500) (w : β) : Bool × CA9500 × β :=
  let s0 := { s with _deviceAddress := address }
  let bDirection := recastPullup bDirection
  let bDirection := !bDirection
  let s1 := { s0 with _portMode := u8 (s0._portMode &&& bnot (shl 1 portBIT)) }
  let s2 := { s1 with _portMode := u8 (s1._portMode ||| shl bDirection.toNat portBIT) }
  writeRegister W CONFIGURATION_REGISTER s2._portMode s2 w

/-- `CA9500::pinMode(bool *portMode)`. The loop may store into the caller's array,
so the array is part of the loop state and of the result. -/
def pinMode_arr (W : TwoWire β) (portMode : BoolArray) (s : CA9500) (w : β) :
    (Bool × BoolArray) × CA9500 × β :=
  let s1 := { s with _portMode := 0 }
  let st := bitPositions.foldl
    (fun (st : BoolArray × CA9500) bitPosition =>
      let arr := Function.update st.1 bitPosition (recastPullup (st.1 bitPosition))
      (arr, { st.2 with _portMode := u8 (st.2._portMode ||| shl (!(arr bitPosition)).toNat bitPosition.val) }))
    (portMode, s1)
  let r := writeRegister W CONFIGURATION_REGISTER st.2._portMode st.2 w
  ((r.1, st.1), r.2.1, r.2.2)

/-- `CA9500::getPinMode(uint8_t portBIT)`. -/
def getPinMode (W : TwoWire β) (portBIT : Nat) (s : CA9500) (w : β) : Bool × CA9500 × β :=
  let r := readRegister W CONFIGURATION_REGISTER s w
  let s1 := { r.2.1 with _inputValue := r.1 }
  (toBool (s1._inputValue &&& shl 1 portBIT), s1, r.2.2)

/-- `CA9500::getPinMode(uint8_t portBIT, uint8_t address)`. -/
def getPinMode_addr (W : TwoWire β) (portBIT address : Nat) (s : CA9500) (w : β) :
    Bool × CA9500 × β :=
  let s0 := { s with _deviceAddress := address }
  let r := readRegister W CONFIGURATION_REGISTER s0 w
  let s1 := { r.2.1 with _inputValue := r.1 }
  (toBool (s1._inputValue &&& shl 1 portBIT), s1, r.2.2)

/-- `CA9500::readBit`. -/
def readBit (W : TwoWire β) (regAddr bitAddr : Nat) (s : CA9500) (w : β) : Bool × CA9500 × β :=
  let r := readRegister W regAddr s w
  (toBool ((r.1 &&& shl 1 bitAddr) >>> bitAddr), r.2.1, r.2.2)

/-- `CA9500::writeBit`. -/
def writeBit (W : TwoWire β) (regAddr bitAddr : Nat) (bitToWrite : Bool) (s : CA9500) (w : β) :
    Bool × CA9500 × β :=
  let s1 := { s with _portMode := u8 (s._portMode &&& bnot (shl 1 bitAddr)) }
  let s2 := { s1 with _portMode := u8 (s1._portMode ||| shl bitToWrite.toNat bitAddr) }
  writeRegister W regAddr s2._portMode s2 w

end CA9500

/-! ## A simulated device on a simulated bus

The device holds the four registers of the register map and answers write
transactions the way `writeRegister` relies on: the first byte of a
transaction is the command byte and selects the register, every further byte
of the same transaction is data stored to the selected register. A read
returns the selected register. The bus side follows the `Wire` buffering: the
bytes queued by `write` reach the device when `endTransmission` runs. -/

/-- Simulated expander: its bus address, the four registers and the command byte
kept from the last write transaction. -/
structure SimDevice where
  address : Nat
  input : Nat
  output : Nat
  polarity : Nat
  config : Nat
  pointer : Nat
  deriving DecidableEq, Repr

/-- Simulated `TwoWire` state: the device on the bus, the address and queued bytes
of the open transmission and the receive buffer. -/
structure SimWire where
  dev : SimDevice
  txAddress : Nat
  txBuffer : List Nat
  rxBuffer : List Nat
  deriving DecidableEq, Repr

namespace SimDevice

/-- The register selected by the command byte. Addresses above 0x03 select no
register and read as 0xFF. -/
def selected (d : SimDevice) : Nat :=
  if d.pointer = INPUT_PORT_REGISTER then d.input
  else if d.pointer = OUTPUT_PORT_REGISTER then d.output
  else if d.pointer = POLARITY_INVERSION_REGISTER then d.polarity
  else if d.pointer = CONFIGURATION_REGISTER then d.config
  else 0xFF

/-- One data byte stored to the selected register. The Input Port register is
read-only; addresses above 0x03 select no register. -/
def store (d : SimDevice) (val : Nat) : SimDevice :=
  if d.pointer = OUTPUT_PORT_REGISTER then { d with output := val }
  else if d.pointer = POLARITY_INVERSION_REGISTER then { d with polarity := val }
  else if d.pointer = CONFIGURATION_REGISTER then { d with config := val }
  else d

/-- A complete acknowledged write transaction: command byte, then data bytes. -/
def receive (d : SimDevice) : List Nat → SimDevice
  | [] => d
  | cmd :: data => data.foldl store { d with pointer := cmd }

end SimDevice

namespace SimWire

/-- `TwoWire::beginTransmission`: opens a transmission, emptying the queue. -/
def beginTransmission (address : Nat) (w : SimWire) : SimWire :=
  { w with txAddress := address, txBuffer := [] }

/-- `TwoWire::write`: queues one byte. -/
def write (val : Nat) (w : SimWire) : SimWire :=
  { w with txBuffer := w.txBuffer ++ [u8 val] }

/-- `TwoWire::endTransmission`: status 0 and delivery when the device is
addressed, status 2 (address not acknowledged) otherwise. -/
def endTransmission (w : SimWire) : Nat × SimWire :=
  if w.txAddress = w.dev.address then
    (0, { w with dev := w.dev.receive w.txBuffer, txBuffer := [] })
  else
    (2, { w with txBuffer := [] })

/-- `TwoWire::requestFrom`: the addressed device sends its selected register for
every requested byte; nothing is received from another address. -/
def requestFrom (address quantity : Nat) (w : SimWire) : Nat × SimWire :=
  if address = w.dev.address then
    (quantity, { w with rxBuffer := List.replicate quantity w.dev.selected })
  else
    (0, { w with rxBuffer := [] })

/-- `TwoWire::read`: the next received byte, or -1 when there is none. -/
def read (w : SimWire) : Int × SimWire :=
  match w.rxBuffer with
  | [] => (-1, w)
  | val :: rest => ((val : Int), { w with rxBuffer := rest })

end SimWire

/-- The simulated bus as a `TwoWire` port. -/
def simWire : TwoWire SimWire where
  beginTransmission := SimWire.beginTransmission
  write := SimWire.write
  endTransmission := SimWire.endTransmission
  requestFrom := SimWire.requestFrom
  read := SimWire.read

/-- A simulated bus at rest holding the device `d`. -/
def SimWire.idle (d : SimDevice) : SimWire :=
  { dev := d, txAddress := 0, txBuffer := [], rxBuffer := [] }

/-- The write transaction `writeRegister` runs against the device at `address`:
the register address byte, then the value byte, then the end of the
transmission. The result is the status code and the bus afterwards. -/
def writeTransaction {β : Type} (W : TwoWire β) (address reg val : Nat) (w : β) : Nat × β :=
  W.endTransmission (W.write val (W.write reg (W.beginTransmission address w)))

/-- A driver state used to instantiate the theorems: selected address 0x70,
mode shadow 0xA5, polarity shadow 0x3C. -/
def exDrv : CA9500 :=
  { _outputValue := 0xFF, _inputValue := 0, _portMode := 0xA5, _portInverted := 0x3C,
    _deviceAddress := 0x70 }

/-- A simulated device at address 0x70 whose Configuration and Polarity registers
hold the shadows of `exDrv` and whose Input and Output registers differ. -/
def exDev : SimDevice :=
  { address := 0x70, input := 0x5A, output := 0xFF, polarity := 0x3C, config := 0xA5,
    pointer := 0 }

/-- The simulated bus at rest holding `exDev`. -/
def exWire : SimWire := SimWire.idle exDev

/-- A driver state as constructed with the initialisers of `ca9500.hpp`, after
`begin(0x70)`. -/
def freshDrv : CA9500 := { _inputValue := 0, _deviceAddress := 0x70 }

/-- A simulated device at address 0x70 with its registers at their power-on
values and all eight pins, still inputs, held low from outside. -/
def lowPinsDev : SimDevice :=
  { address := 0x70, input := 0x00, output := 0xFF, polarity := 0x00, config := 0xFF,
    pointer := 0 }

/-- An array of eight booleans used to instantiate the theorems: elements 0, 3
and 6 are `true`. -/
def exArr : BoolArray := fun i => decide (i.val % 3 = 0)

/-- The array of eight `false`. -/
def allFalse : BoolArray := fun _ => false

/-! ## A recording bus -/

/-- One call made on the `TwoWire` object. -/
inductive BusCall where
  | beginTransmission (address : Nat)
  | write (val : Nat)
  | endTransmission
  | requestFrom (address quantity : Nat)
  | read
  deriving DecidableEq, Repr

/-- The bus `W` with a record, in order, of every call made on it. The calls go
on to `W` unchanged and return what `W` returns. -/
def recording {β : Type} (W : TwoWire β) : TwoWire (List BusCall × β) where
  beginTransmission address x :=
    (x.1 ++ [BusCall.beginTransmission address], W.beginTransmission address x.2)
  write val x := (x.1 ++ [BusCall.write val], W.write val x.2)
  endTransmission x :=
    ((W.endTransmission x.2).1, (x.1 ++ [BusCall.endTransmission], (W.endTransmission x.2).2))
  requestFrom address quantity x :=
    ((W.requestFrom address quantity x.2).1,
      (x.1 ++ [BusCall.requestFrom address quantity], (W.requestFrom address quantity x.2).2))
  read x := ((W.read x.2).1, (x.1 ++ [BusCall.read], (W.read x.2).2))

/-- The bus `W` with the status code of `endTransmission` replaced by `status`. -/
def withStatus {β : Type} (W : TwoWire β) (status : β → Nat) : TwoWire β :=
  { W with endTransmission := fun x => (status x, (W.endTransmission x).2) }

/-- The three shadow registers of the driver state: output, mode, polarity. -/
def CA9500.shadows (s : CA9500) : Nat × Nat × Nat :=
  (s._outputValue, s._portMode, s._portInverted)

/-- A driver state whose three shadows differ from the values `SoftReset` sends. -/
def staleDrv : CA9500 :=
  { _outputValue := 0x81, _inputValue := 0, _portMode := 0x0F, _portInverted := 0xC3,
    _deviceAddress := 0x70 }

/-- A simulated bus whose only device answers at 0x20, so that nothing answers
at 0x70, the address selected in `exDrv`. -/
def farWire : SimWire := SimWire.idle { exDev with address := 0x20 }

/-! ## Bit-level lemmas -/

theorem u8_lt (x : Nat) : u8 x < 256 := Nat.mod_lt _ (by decide)

theorem u8_of_lt {x : Nat} (h : x < 256) : u8 x = x := Nat.mod_eq_of_lt h

theorem testBit_u8 (x j : Nat) : (u8 x).testBit j = (decide (j < 8) && x.testBit j) := by
  unfold u8
  exact Nat.testBit_mod_two_pow x 8 j

theorem intToU8_cast (x : Nat) : intToU8 (x : Int) = u8 x := by
  unfold intToU8 u8
  omega

theorem testBit_shl (x n j : Nat) :
    (shl x n).testBit j = (decide (j < 16) && (decide (n ≤ j) && x.testBit (j - n))) := by
  unfold shl
  rw [show (65536 : Nat) = 2 ^ 16 from rfl, Nat.testBit_mod_two_pow, Nat.testBit_shiftLeft]

theorem testBit_bnot (x j : Nat) :
    (bnot x).testBit j = (decide (j < 16) && !x.testBit j) := by
  unfold bnot
  rw [show (65536 : Nat) = 2 ^ 16 from rfl, show (65535 : Nat) = 2 ^ 16 - 1 from rfl,
    Nat.testBit_xor, Nat.testBit_two_pow_sub_one, Nat.testBit_mod_two_pow]
  by_cases h : j < 16 <;> simp [h]

theorem testBit_one (k : Nat) : (1 : Nat).testBit k = decide (k = 0) := by
  have h := Nat.testBit_bool_to_nat true k
  simpa using h

/-- Bits of the byte left by `x &= ~(1 << b); x |= v << b;` in a `uint8_t`. -/
theorem testBit_patch (x b j : Nat) (v : Bool) (hj : j < 8) :
    (u8 (u8 (x &&& bnot (shl 1 b)) ||| shl v.toNat b)).testBit j
      = if j = b then v else x.testBit j := by
  simp only [testBit_u8, Nat.testBit_or, Nat.testBit_and, testBit_bnot, testBit_shl,
    testBit_one, Nat.testBit_bool_to_nat]
  have h16 : j < 16 := by omega
  by_cases hjb : j = b
  · subst hjb; simp [hj, h16]
  · by_cases hle : b ≤ j
    · have hne : j - b ≠ 0 := by omega
      simp [hj, h16, hjb, hle, hne]
    · simp [hj, h16, hjb, hle]

/-- The test `x & (1 << b)` converted to `bool` is bit `b` of `x`. -/
theorem toBool_and_shl (x b : Nat) (hb : b < 16) : toBool (x &&& shl 1 b) = x.testBit b := by
  unfold toBool
  cases hx : x.testBit b
  · have h0 : x &&& shl 1 b = 0 := by
      apply Nat.eq_of_testBit_eq
      intro j
      rw [Nat.testBit_and, testBit_shl, testBit_one, Nat.zero_testBit]
      by_cases hjb : j = b
      · subst hjb; simp [hx]
      · by_cases hle : b ≤ j
        · have hne : j - b ≠ 0 := by omega
          simp [hne]
        · simp [hle]
    simp [h0]
  · have h1 : (x &&& shl 1 b).testBit b = true := by
      rw [Nat.testBit_and, testBit_shl, testBit_one]
      simp [hx, hb]
    have hne : x &&& shl 1 b ≠ 0 := by
      intro h0
      rw [h0, Nat.zero_testBit] at h1
      exact Bool.noConfusion h1
    simpa using hne

/-- A byte is determined by its eight bits. -/
theorem eq_of_testBit_lt_8 {x y : Nat} (hx : x < 256) (hy : y < 256)
    (h : ∀ j, j < 8 → x.testBit j = y.testBit j) : x = y := by
  apply Nat.eq_of_testBit_eq
  intro j
  by_cases hj : j < 8
  · exact h j hj
  · have h8 : 2 ^ 8 ≤ 2 ^ j := Nat.pow_le_pow_right (by decide) (by omega)
    rw [Nat.testBit_lt_two_pow (by omega), Nat.testBit_lt_two_pow (by omega)]

/-! ## Lemmas on the register primitives -/

namespace CA9500

variable {β : Type}

theorem writeRegister_drv (W : TwoWire β) (addr val : Nat) (s : CA9500) (w : β) :
    (writeRegister W addr val s w).2.1 = s := by
  simp only [writeRegister]
  split <;> rfl

theorem writeRegister_wire (W : TwoWire β) (addr val : Nat) (s : CA9500) (w : β) :
    (writeRegister W addr val s w).2.2 = (writeTransaction W s._deviceAddress addr val w).2 := by
  simp only [writeRegister, writeTransaction]
  split <;> rfl

theorem writeRegister_ret (W : TwoWire β) (addr val : Nat) (s : CA9500) (w : β) :
    (writeRegister W addr val s w).1
      = decide ((writeTransaction W s._deviceAddress addr val w).1 = 0) := by
  simp only [writeRegister, writeTransaction]
  split <;> simp_all

theorem readRegister_drv (W : TwoWire β) (addr : Nat) (s : CA9500) (w : β) :
    (readRegister W addr s w).2.1 = s := by
  simp only [readRegister]
  split <;> rfl

end CA9500

/-! ## Lemmas on the simulated bus -/

theorem sim_writeTransaction (ws : SimWire) (a reg val : Nat) (h : ws.dev.address = a) :
    writeTransaction simWire a reg val ws
      = (0, { dev := SimDevice.store { ws.dev with pointer := u8 reg } (u8 val),
              txAddress := a, txBuffer := [], rxBuffer := ws.rxBuffer }) := by
  simp [writeTransaction, simWire, SimWire.beginTransmission, SimWire.write,
    SimWire.endTransmission, SimDevice.receive, h]

theorem sim_readRegister (ws : SimWire) (s : CA9500) (reg : Nat)
    (h : ws.dev.address = s._deviceAddress) :
    CA9500.readRegister simWire reg s ws
      = (u8 (SimDevice.selected { ws.dev with pointer := u8 reg }), s,
          { dev := { ws.dev with pointer := u8 reg }, txAddress := s._deviceAddress,
            txBuffer := [], rxBuffer := [] }) := by
  simp [CA9500.readRegister, simWire, SimWire.beginTransmission, SimWire.write,
    SimWire.endTransmission, SimWire.requestFrom, SimWire.read, SimDevice.receive, h,
    intToU8_cast]

/-! ## Lemmas on the pin operations -/

namespace CA9500

variable {β : Type}

/-- On a `bool` the comparison with `INPUT_PULLUP` never holds. -/
theorem recastPullup_eq (d : Bool) : recastPullup d = d := by
  cases d <;> rfl

theorem invertPin_drv (W : TwoWire β) (b : Nat) (v : Bool) (s : CA9500) (w : β) :
    (invertPin W b v s w).2.1
      = { s with _portInverted := u8 (u8 (s._portInverted &&& bnot (shl 1 b)) ||| shl v.toNat b) } := by
  simp only [invertPin, writeRegister_drv]

theorem invertPin_wire (W : TwoWire β) (b : Nat) (v : Bool) (s : CA9500) (w : β) :
    (invertPin W b v s w).2.2
      = (writeTransaction W s._deviceAddress POLARITY_INVERSION_REGISTER
          (invertPin W b v s w).2.1._portInverted w).2 := by
  rw [invertPin_drv]
  simp only [invertPin, writeRegister_wire]

theorem pinMode_drv (W : TwoWire β) (b : Nat) (d : Bool) (s : CA9500) (w : β) :
    (pinMode W b d s w).2.1
      = { s with _portMode := u8 (u8 (s._portMode &&& bnot (shl 1 b)) ||| shl (!d).toNat b) } := by
  simp only [pinMode, writeRegister_drv, recastPullup_eq]

theorem pinMode_wire (W : TwoWire β) (b : Nat) (d : Bool) (s : CA9500) (w : β) :
    (pinMode W b d s w).2.2
      = (writeTransaction W s._deviceAddress CONFIGURATION_REGISTER
          (pinMode W b d s w).2.1._portMode w).2 := by
  rw [pinMode_drv]
  simp only [pinMode, writeRegister_wire, recastPullup_eq]

end CA9500

/-- On an acknowledging simulated device `invertPin` leaves its new polarity
shadow in the Polarity Inversion register. -/
theorem sim_invertPin_polarity (ws : SimWire) (s : CA9500) (b : Nat) (v : Bool)
    (h : ws.dev.address = s._deviceAddress) :
    (CA9500.invertPin simWire b v s ws).2.2.dev.polarity
      = (CA9500.invertPin simWire b v s ws).2.1._portInverted
    ∧ (CA9500.invertPin simWire b v s ws).2.2.dev.address = ws.dev.address := by
  rw [CA9500.invertPin_wire, sim_writeTransaction _ _ _ _ h, CA9500.invertPin_drv]
  simp [SimDevice.store, u8, POLARITY_INVERSION_REGISTER, OUTPUT_PORT_REGISTER]

/-- On an acknowledging simulated device `pinMode` leaves its new mode shadow in
the Configuration register. -/
theorem sim_pinMode_config (ws : SimWire) (s : CA9500) (b : Nat) (d : Bool)
    (h : ws.dev.address = s._deviceAddress) :
    (CA9500.pinMode simWire b d s ws).2.2.dev.config
      = (CA9500.pinMode simWire b d s ws).2.1._portMode
    ∧ (CA9500.pinMode simWire b d s ws).2.2.dev.address = ws.dev.address := by
  rw [CA9500.pinMode_wire, sim_writeTransaction _ _ _ _ h, CA9500.pinMode_drv]
  simp [SimDevice.store, u8, CONFIGURATION_REGISTER, POLARITY_INVERSION_REGISTER,
    OUTPUT_PORT_REGISTER]

/-- Reading a register of an acknowledging simulated device returns its content
truncated to a byte. -/
theorem sim_read_polarity (ws : SimWire) (s : CA9500) (h : ws.dev.address = s._deviceAddress) :
    (CA9500.readRegister simWire POLARITY_INVERSION_REGISTER s ws).1 = u8 ws.dev.polarity := by
  rw [sim_readRegister _ _ _ h]
  simp [SimDevice.selected, u8, POLARITY_INVERSION_REGISTER, OUTPUT_PORT_REGISTER,
    INPUT_PORT_REGISTER]

theorem sim_read_config (ws : SimWire) (s : CA9500) (h : ws.dev.address = s._deviceAddress) :
    (CA9500.readRegister simWire CONFIGURATION_REGISTER s ws).1 = u8 ws.dev.config := by
  rw [sim_readRegister _ _ _ h]
  simp [SimDevice.selected, u8, CONFIGURATION_REGISTER, POLARITY_INVERSION_REGISTER,
    OUTPUT_PORT_REGISTER, INPUT_PORT_REGISTER]

theorem sim_read_output (ws : SimWire) (s : CA9500) (h : ws.dev.address = s._deviceAddress) :
    (CA9500.readRegister simWire OUTPUT_PORT_REGISTER s ws).1 = u8 ws.dev.output := by
  rw [sim_readRegister _ _ _ h]
  simp [SimDevice.selected, u8, OUTPUT_PORT_REGISTER, INPUT_PORT_REGISTER]

theorem sim_read_input (ws : SimWire) (s : CA9500) (h : ws.dev.address = s._deviceAddress) :
    (CA9500.readRegister simWire INPUT_PORT_REGISTER s ws).1 = u8 ws.dev.input := by
  rw [sim_readRegister _ _ _ h]
  simp [SimDevice.selected, u8, INPUT_PORT_REGISTER]

/-! ## Single-pin writes -/

/-- C1. `invertPin(b, v)` sends its new polarity shadow to register 0x02 and
`pinMode(b, d)` its new mode shadow to register 0x03, and for every bit `j` in
0..7 other than `b` the byte sent has the bit the shadow had before the call;
on an acknowledging simulated device whose register holds the shadow, the
register read back after the call has bit `j` unchanged. -/
theorem single_pin_write_keeps_other_bits {β : Type} (W : TwoWire β) (s : CA9500) (w : β)
    (ws : SimWire) (b j : Nat) (v d : Bool) (hb : b < 8) (hj : j < 8) (hjb : j ≠ b)
    (hack : ws.dev.address = s._deviceAddress)
    (hpol : ws.dev.polarity = s._portInverted) (hcfg : ws.dev.config = s._portMode) :
    ((CA9500.invertPin W b v s w).2.2
        = (writeTransaction W s._deviceAddress POLARITY_INVERSION_REGISTER
            (CA9500.invertPin W b v s w).2.1._portInverted w).2
      ∧ (CA9500.invertPin W b v s w).2.1._portInverted.testBit j = s._portInverted.testBit j)
    ∧ ((CA9500.pinMode W b d s w).2.2
        = (writeTransaction W s._deviceAddress CONFIGURATION_REGISTER
            (CA9500.pinMode W b d s w).2.1._portMode w).2
      ∧ (CA9500.pinMode W b d s w).2.1._portMode.testBit j = s._portMode.testBit j)
    ∧ (CA9500.readRegister simWire POLARITY_INVERSION_REGISTER
          (CA9500.invertPin simWire b v s ws).2.1 (CA9500.invertPin simWire b v s ws).2.2).1.testBit j
        = ws.dev.polarity.testBit j
    ∧ (CA9500.readRegister simWire CONFIGURATION_REGISTER
          (CA9500.pinMode simWire b d s ws).2.1 (CA9500.pinMode simWire b d s ws).2.2).1.testBit j
        = ws.dev.config.testBit j := by
  have _hb : b < 8 := hb
  have hinv : ∀ {γ : Type} (V : TwoWire γ) (x : γ),
      (CA9500.invertPin V b v s x).2.1._portInverted.testBit j = s._portInverted.testBit j := by
    intro γ V x
    rw [CA9500.invertPin_drv]
    simp only [testBit_patch _ _ _ _ hj, if_neg hjb]
  have hmode : ∀ {γ : Type} (V : TwoWire γ) (x : γ),
      (CA9500.pinMode V b d s x).2.1._portMode.testBit j = s._portMode.testBit j := by
    intro γ V x
    rw [CA9500.pinMode_drv]
    simp only [testBit_patch _ _ _ _ hj, if_neg hjb]
  refine ⟨⟨CA9500.invertPin_wire W b v s w, hinv W w⟩,
    ⟨CA9500.pinMode_wire W b d s w, hmode W w⟩, ?_, ?_⟩
  · have hp := sim_invertPin_polarity ws s b v hack
    have hadr : (CA9500.invertPin simWire b v s ws).2.2.dev.address
        = (CA9500.invertPin simWire b v s ws).2.1._deviceAddress := by
      rw [hp.2, hack, CA9500.invertPin_drv]
    rw [sim_read_polarity _ _ hadr, hp.1, testBit_u8, hinv simWire ws, hpol]
    simp [hj]
  · have hp := sim_pinMode_config ws s b d hack
    have hadr : (CA9500.pinMode simWire b d s ws).2.2.dev.address
        = (CA9500.pinMode simWire b d s ws).2.1._deviceAddress := by
      rw [hp.2, hack, CA9500.pinMode_drv]
    rw [sim_read_config _ _ hadr, hp.1, testBit_u8, hmode simWire ws, hcfg]
    simp [hj]

/-- C1 at a concrete input: bit 5 around a write of bit 3 on the device `exDev`. -/
theorem single_pin_write_keeps_other_bits_witness :
    (3 < 8 ∧ 5 < 8 ∧ 5 ≠ 3 ∧ exWire.dev.address = exDrv._deviceAddress
      ∧ exWire.dev.polarity = exDrv._portInverted ∧ exWire.dev.config = exDrv._portMode)
    ∧ (((CA9500.invertPin simWire 3 true exDrv exWire).2.2
          = (writeTransaction simWire exDrv._deviceAddress POLARITY_INVERSION_REGISTER
              (CA9500.invertPin simWire 3 true exDrv exWire).2.1._portInverted exWire).2
        ∧ (CA9500.invertPin simWire 3 true exDrv exWire).2.1._portInverted.testBit 5
            = exDrv._portInverted.testBit 5)
      ∧ ((CA9500.pinMode simWire 3 true exDrv exWire).2.2
          = (writeTransaction simWire exDrv._deviceAddress CONFIGURATION_REGISTER
              (CA9500.pinMode simWire 3 true exDrv exWire).2.1._portMode exWire).2
        ∧ (CA9500.pinMode simWire 3 true exDrv exWire).2.1._portMode.testBit 5
            = exDrv._portMode.testBit 5)
      ∧ (CA9500.readRegister simWire POLARITY_INVERSION_REGISTER
            (CA9500.invertPin simWire 3 true exDrv exWire).2.1
            (CA9500.invertPin simWire 3 true exDrv exWire).2.2).1.testBit 5
          = exWire.dev.polarity.testBit 5
      ∧ (CA9500.readRegister simWire CONFIGURATION_REGISTER
            (CA9500.pinMode simWire 3 true exDrv exWire).2.1
            (CA9500.pinMode simWire 3 true exDrv exWire).2.2).1.testBit 5
          = exWire.dev.config.testBit 5) :=
  ⟨⟨by decide, by decide, by decide, rfl, rfl, rfl⟩,
    single_pin_write_keeps_other_bits simWire exDrv exWire exWire 3 5 true true
      (by decide) (by decide) (by decide) rfl rfl rfl⟩

/-! ## digitalWrite -/

theorem CA9500.digitalWrite_drv {β : Type} (W : TwoWire β) (b : Nat) (v : Bool) (s : CA9500)
    (w : β) :
    (CA9500.digitalWrite W b v s w).2.1
      = { s with _outputValue := u8 (u8 ((CA9500.readRegister W INPUT_PORT_REGISTER s w).1 &&& bnot (shl 1 b)) ||| shl v.toNat b) } := by
  simp only [CA9500.digitalWrite, CA9500.writeRegister_drv, CA9500.readRegister_drv]

theorem CA9500.digitalWrite_wire {β : Type} (W : TwoWire β) (b : Nat) (v : Bool) (s : CA9500)
    (w : β) :
    (CA9500.digitalWrite W b v s w).2.2
      = (writeTransaction W s._deviceAddress OUTPUT_PORT_REGISTER
          (CA9500.digitalWrite W b v s w).2.1._outputValue
          (CA9500.readRegister W INPUT_PORT_REGISTER s w).2.2).2 := by
  rw [CA9500.digitalWrite_drv]
  simp only [CA9500.digitalWrite, CA9500.writeRegister_wire, CA9500.readRegister_drv]

/-- C2, evaluated. The driver writes 0xFF to the Output Port register of a device
whose pins are held low, then calls `digitalWrite(0, true)`: the Output Port
register reads back 0x01, so bits 1..7, all 1 in the byte written before the call,
are now 0. -/
theorem digitalWrite_disturbs_other_output_bits :
    (CA9500.writeRegister simWire OUTPUT_PORT_REGISTER 0xFF freshDrv
        (SimWire.idle lowPinsDev)).2.2.dev.output = 0xFF
    ∧ (CA9500.readRegister simWire OUTPUT_PORT_REGISTER freshDrv
        (CA9500.digitalWrite simWire 0 true freshDrv
          (CA9500.writeRegister simWire OUTPUT_PORT_REGISTER 0xFF freshDrv
            (SimWire.idle lowPinsDev)).2.2).2.2).1 = 0x01
    ∧ Nat.testBit 0xFF 1 = true ∧ Nat.testBit 0x01 1 = false := by
  decide

/-- C3. On an acknowledging simulated device `digitalWrite(b, v)` writes to the
Output Port register the byte whose bit `b` is `v` and whose other bits are
those of the Input Port register, whatever the Output Port register held; the
register and the output shadow both hold that byte afterwards. -/
theorem digitalWrite_patches_input_register (ws : SimWire) (s : CA9500) (b j : Nat) (v : Bool)
    (hb : b < 8) (hj : j < 8) (hack : ws.dev.address = s._deviceAddress) :
    (CA9500.digitalWrite simWire b v s ws).2.2
        = (writeTransaction simWire s._deviceAddress OUTPUT_PORT_REGISTER
            (CA9500.digitalWrite simWire b v s ws).2.1._outputValue
            (CA9500.readRegister simWire INPUT_PORT_REGISTER s ws).2.2).2
    ∧ (CA9500.digitalWrite simWire b v s ws).2.2.dev.output
        = (CA9500.digitalWrite simWire b v s ws).2.1._outputValue
    ∧ (CA9500.digitalWrite simWire b v s ws).2.1._outputValue < 256
    ∧ (CA9500.digitalWrite simWire b v s ws).2.1._outputValue.testBit b = v
    ∧ (CA9500.digitalWrite simWire b v s ws).2.1._outputValue.testBit j
        = if j = b then v else ws.dev.input.testBit j := by
  have hbits : ∀ k, k < 8 → (CA9500.digitalWrite simWire b v s ws).2.1._outputValue.testBit k
      = if k = b then v else ws.dev.input.testBit k := by
    intro k hk
    rw [CA9500.digitalWrite_drv]
    simp only [testBit_patch _ _ _ _ hk, sim_read_input _ _ hack, testBit_u8, hk, decide_True,
      Bool.true_and]
  refine ⟨CA9500.digitalWrite_wire simWire b v s ws, ?_, ?_, ?_, hbits j hj⟩
  · have hadr : (CA9500.readRegister simWire INPUT_PORT_REGISTER s ws).2.2.dev.address
        = s._deviceAddress := by
      rw [sim_readRegister _ _ _ hack]
      exact hack
    rw [CA9500.digitalWrite_wire, sim_writeTransaction _ _ _ _ hadr, CA9500.digitalWrite_drv]
    simp [SimDevice.store, u8, OUTPUT_PORT_REGISTER]
  · rw [CA9500.digitalWrite_drv]
    exact u8_lt _
  · rw [hbits b hb, if_pos rfl]

/-- C3 at a concrete input: bit 3 cleared on `exDev`, whose Input Port register
holds 0x5A and whose Output Port register holds 0xFF; bit 5 is observed. -/
theorem digitalWrite_patches_input_register_witness :
    (3 < 8 ∧ 5 < 8 ∧ exWire.dev.address = exDrv._deviceAddress)
    ∧ ((CA9500.digitalWrite simWire 3 false exDrv exWire).2.2
          = (writeTransaction simWire exDrv._deviceAddress OUTPUT_PORT_REGISTER
              (CA9500.digitalWrite simWire 3 false exDrv exWire).2.1._outputValue
              (CA9500.readRegister simWire INPUT_PORT_REGISTER exDrv exWire).2.2).2
      ∧ (CA9500.digitalWrite simWire 3 false exDrv exWire).2.2.dev.output
          = (CA9500.digitalWrite simWire 3 false exDrv exWire).2.1._outputValue
      ∧ (CA9500.digitalWrite simWire 3 false exDrv exWire).2.1._outputValue < 256
      ∧ (CA9500.digitalWrite simWire 3 false exDrv exWire).2.1._outputValue.testBit 3 = false
      ∧ (CA9500.digitalWrite simWire 3 false exDrv exWire).2.1._outputValue.testBit 5
          = if 5 = 3 then false else exWire.dev.input.testBit 5) :=
  ⟨⟨by decide, by decide, rfl⟩,
    digitalWrite_patches_input_register exWire exDrv 3 5 false (by decide) (by decide) rfl⟩

/-! ## Round trips through the Configuration and Polarity Inversion registers -/

theorem CA9500.getPinMode_ret {β : Type} (W : TwoWire β) (b : Nat) (s : CA9500) (w : β)
    (hb : b < 8) :
    (CA9500.getPinMode W b s w).1
      = (CA9500.readRegister W CONFIGURATION_REGISTER s w).1.testBit b := by
  simp only [CA9500.getPinMode]
  exact toBool_and_shl _ _ (by omega)

theorem CA9500.isPinInverted_ret {β : Type} (W : TwoWire β) (b : Nat) (s : CA9500) (w : β)
    (hb : b < 8) :
    (CA9500.isPinInverted W b s w).1
      = (CA9500.readRegister W POLARITY_INVERSION_REGISTER s w).1.testBit b := by
  simp only [CA9500.isPinInverted]
  exact toBool_and_shl _ _ (by omega)

/-- C4. On an acknowledging simulated device `pinMode(b, d)` stores `not d` in
bit `b` of the Configuration register and a following `getPinMode(b)` returns
that stored bit, `not d`; after `pinMode(b, OUTPUT)` it returns `false`. -/
theorem pinMode_getPinMode_asymmetry (ws : SimWire) (s : CA9500) (b : Nat) (d : Bool)
    (hb : b < 8) (hack : ws.dev.address = s._deviceAddress) :
    (CA9500.pinMode simWire b d s ws).2.2.dev.config.testBit b = !d
    ∧ (CA9500.getPinMode simWire b (CA9500.pinMode simWire b d s ws).2.1
        (CA9500.pinMode simWire b d s ws).2.2).1 = !d
    ∧ (CA9500.getPinMode simWire b (CA9500.pinMode simWire b (toBool OUTPUT) s ws).2.1
        (CA9500.pinMode simWire b (toBool OUTPUT) s ws).2.2).1 = false := by
  have hstored : ∀ e : Bool, (CA9500.pinMode simWire b e s ws).2.2.dev.config.testBit b = !e := by
    intro e
    rw [(sim_pinMode_config ws s b e hack).1, CA9500.pinMode_drv]
    simp [testBit_patch _ _ _ _ hb]
  have hread : ∀ e : Bool, (CA9500.getPinMode simWire b (CA9500.pinMode simWire b e s ws).2.1
      (CA9500.pinMode simWire b e s ws).2.2).1 = !e := by
    intro e
    have hadr : (CA9500.pinMode simWire b e s ws).2.2.dev.address
        = (CA9500.pinMode simWire b e s ws).2.1._deviceAddress := by
      rw [(sim_pinMode_config ws s b e hack).2, hack, CA9500.pinMode_drv]
    rw [CA9500.getPinMode_ret _ _ _ _ hb, sim_read_config _ _ hadr, testBit_u8, hstored e]
    simp [hb]
  exact ⟨hstored d, hread d, hread (toBool OUTPUT)⟩

/-- C4 at a concrete input: pin 3 of `exDev` made an output. -/
theorem pinMode_getPinMode_asymmetry_witness :
    (3 < 8 ∧ exWire.dev.address = exDrv._deviceAddress)
    ∧ ((CA9500.pinMode simWire 3 true exDrv exWire).2.2.dev.config.testBit 3 = !true
      ∧ (CA9500.getPinMode simWire 3 (CA9500.pinMode simWire 3 true exDrv exWire).2.1
          (CA9500.pinMode simWire 3 true exDrv exWire).2.2).1 = !true
      ∧ (CA9500.getPinMode simWire 3 (CA9500.pinMode simWire 3 (toBool OUTPUT) exDrv exWire).2.1
          (CA9500.pinMode simWire 3 (toBool OUTPUT) exDrv exWire).2.2).1 = false) :=
  ⟨⟨by decide, rfl⟩, pinMode_getPinMode_asymmetry exWire exDrv 3 true (by decide) rfl⟩

/-- C5. On an acknowledging simulated device `invertPin(b, v)` followed by
`isPinInverted(b)` returns `v`; writing `true` reads back `true`. -/
theorem invertPin_isPinInverted_roundtrip (ws : SimWire) (s : CA9500) (b : Nat) (v : Bool)
    (hb : b < 8) (hack : ws.dev.address = s._deviceAddress) :
    (CA9500.isPinInverted simWire b (CA9500.invertPin simWire b v s ws).2.1
        (CA9500.invertPin simWire b v s ws).2.2).1 = v
    ∧ (CA9500.isPinInverted simWire b (CA9500.invertPin simWire b true s ws).2.1
        (CA9500.invertPin simWire b true s ws).2.2).1 = true := by
  have hread : ∀ e : Bool, (CA9500.isPinInverted simWire b
      (CA9500.invertPin simWire b e s ws).2.1 (CA9500.invertPin simWire b e s ws).2.2).1 = e := by
    intro e
    have hp := sim_invertPin_polarity ws s b e hack
    have hadr : (CA9500.invertPin simWire b e s ws).2.2.dev.address
        = (CA9500.invertPin simWire b e s ws).2.1._deviceAddress := by
      rw [hp.2, hack, CA9500.invertPin_drv]
    rw [CA9500.isPinInverted_ret _ _ _ _ hb, sim_read_polarity _ _ hadr, testBit_u8, hp.1,
      CA9500.invertPin_drv]
    simp [testBit_patch _ _ _ _ hb, hb]
  exact ⟨hread v, hread true⟩

/-- C5 at a concrete input: inversion of pin 6 of `exDev` switched off. -/
theorem invertPin_isPinInverted_roundtrip_witness :
    (6 < 8 ∧ exWire.dev.address = exDrv._deviceAddress)
    ∧ ((CA9500.isPinInverted simWire 6 (CA9500.invertPin simWire 6 false exDrv exWire).2.1
          (CA9500.invertPin simWire 6 false exDrv exWire).2.2).1 = false
      ∧ (CA9500.isPinInverted simWire 6 (CA9500.invertPin simWire 6 true exDrv exWire).2.1
          (CA9500.invertPin simWire 6 true exDrv exWire).2.2).1 = true) :=
  ⟨⟨by decide, rfl⟩, invertPin_isPinInverted_roundtrip exWire exDrv 6 false (by decide) rfl⟩

/-! ## SoftReset -/

/-- C6, evaluated. `SoftReset()` against the acknowledging device `exDev`
(Configuration 0xA5, Polarity Inversion 0x3C, Output Port 0xFF): the transaction
returns status 0, its first byte selects register 0x03 and the five bytes
after it are all stored there, so the three registers read back 0x00, 0x3C,
0xFF, not 0xFF, 0x00, 0x00. -/
theorem softReset_leaves_no_defaults :
    (CA9500.SoftReset simWire exDrv exWire).1 = 0
    ∧ (CA9500.readRegister simWire CONFIGURATION_REGISTER exDrv
        (CA9500.SoftReset simWire exDrv exWire).2.2).1 = 0x00
    ∧ (CA9500.readRegister simWire POLARITY_INVERSION_REGISTER exDrv
        (CA9500.SoftReset simWire exDrv exWire).2.2).1 = 0x3C
    ∧ (CA9500.readRegister simWire OUTPUT_PORT_REGISTER exDrv
        (CA9500.SoftReset simWire exDrv exWire).2.2).1 = 0xFF := by
  decide

/-! ## hexCheck -/

/-- C7. `hexCheck(a)` returns `true` exactly when the zero-length write
transaction to `a` ends with status 0, and the selected address is `a`
afterwards; against a simulated device that does not answer at `a` it returns
`false` and the selected address is `a`. -/
theorem hexCheck_selects_address {β : Type} (W : TwoWire β) (s : CA9500) (w : β) (a : Nat)
    (ws : SimWire) (hnack : ws.dev.address ≠ a) :
    ((CA9500.hexCheck W a s w).1 = true ↔ (W.endTransmission (W.beginTransmission a w)).1 = 0)
    ∧ (CA9500.hexCheck W a s w).2.1._deviceAddress = a
    ∧ (CA9500.hexCheck W a s w).2.2 = (W.endTransmission (W.beginTransmission a w)).2
    ∧ (CA9500.hexCheck simWire a s ws).1 = false
    ∧ (CA9500.hexCheck simWire a s ws).2.1._deviceAddress = a := by
  have hgen : ∀ {γ : Type} (V : TwoWire γ) (x : γ),
      ((CA9500.hexCheck V a s x).1 = true ↔ (V.endTransmission (V.beginTransmission a x)).1 = 0)
      ∧ (CA9500.hexCheck V a s x).2.1._deviceAddress = a
      ∧ (CA9500.hexCheck V a s x).2.2 = (V.endTransmission (V.beginTransmission a x)).2 := by
    intro γ V x
    simp only [CA9500.hexCheck]
    split <;> simp_all
  refine ⟨(hgen W w).1, (hgen W w).2.1, (hgen W w).2.2, ?_, (hgen simWire ws).2.1⟩
  have hst : (simWire.endTransmission (simWire.beginTransmission a ws)).1 = 2 := by
    simp [simWire, SimWire.beginTransmission, SimWire.endTransmission, Ne.symm hnack]
  cases hret : (CA9500.hexCheck simWire a s ws).1
  · rfl
  · have h0 := ((hgen simWire ws).1).1 hret
    rw [hst] at h0
    exact absurd h0 (by decide)

/-- C7 at a concrete input: address 0x20 probed while `exDev` answers at 0x70. -/
theorem hexCheck_selects_address_witness :
    exWire.dev.address ≠ 0x20
    ∧ (((CA9500.hexCheck simWire 0x20 exDrv exWire).1 = true
          ↔ (simWire.endTransmission (simWire.beginTransmission 0x20 exWire)).1 = 0)
      ∧ (CA9500.hexCheck simWire 0x20 exDrv exWire).2.1._deviceAddress = 0x20
      ∧ (CA9500.hexCheck simWire 0x20 exDrv exWire).2.2
          = (simWire.endTransmission (simWire.beginTransmission 0x20 exWire)).2
      ∧ (CA9500.hexCheck simWire 0x20 exDrv exWire).1 = false
      ∧ (CA9500.hexCheck simWire 0x20 exDrv exWire).2.1._deviceAddress = 0x20) :=
  ⟨by decide, hexCheck_selects_address simWire exDrv exWire 0x20 exWire (by decide)⟩

/-! ## Bulk operations -/

theorem val_bitPosition_3 : ((3 : Fin 8) : Nat) = 3 := rfl
theorem val_bitPosition_4 : ((4 : Fin 8) : Nat) = 4 := rfl
theorem val_bitPosition_5 : ((5 : Fin 8) : Nat) = 5 := rfl
theorem val_bitPosition_6 : ((6 : Fin 8) : Nat) = 6 := rfl
theorem val_bitPosition_7 : ((7 : Fin 8) : Nat) = 7 := rfl

/-- The accumulator of the packing loops `acc |= a[bitPosition] << bitPosition`
ends with bit `j` equal to `a[j]`. -/
theorem testBit_pack_loop (a : BoolArray) (j : Fin 8) :
    (bitPositions.foldl
      (fun acc bitPosition => u8 (acc ||| shl (a bitPosition).toNat bitPosition.val)) 0).testBit j.val
      = a j := by
  simp only [bitPositions, List.foldl, testBit_u8, Nat.testBit_or, testBit_shl,
    Nat.testBit_bool_to_nat, Nat.zero_testBit]
  fin_cases j <;>
    simp [val_bitPosition_3, val_bitPosition_4, val_bitPosition_5, val_bitPosition_6,
      val_bitPosition_7]

theorem pack_loop_lt (a : BoolArray) :
    bitPositions.foldl
      (fun acc bitPosition => u8 (acc ||| shl (a bitPosition).toNat bitPosition.val)) 0 < 256 := by
  simp only [bitPositions, List.foldl]
  exact u8_lt _

/-- The array left by the unpacking loop of `digitalReadPort`. -/
theorem unpack_loop (x : Nat) (a0 : BoolArray) (j : Fin 8) :
    bitPositions.foldl
      (fun a bitPosition => Function.update a bitPosition (toBool (x &&& shl 1 bitPosition.val)))
      a0 j = x.testBit j.val := by
  rw [← toBool_and_shl x j.val (by omega)]
  simp only [bitPositions, List.foldl]
  fin_cases j <;>
    simp [Function.update, val_bitPosition_3, val_bitPosition_4, val_bitPosition_5,
      val_bitPosition_6, val_bitPosition_7]

namespace CA9500

variable {β : Type}

theorem digitalWrite_arr_drv (W : TwoWire β) (a : BoolArray) (s : CA9500) (w : β) :
    (digitalWrite_arr W a s w).2.1
      = { s with _outputValue := (bitPositions.foldl
            (fun acc bitPosition => u8 (acc ||| shl (a bitPosition).toNat bitPosition.val)) 0) } := by
  simp only [digitalWrite_arr, writeRegister_drv, bitPositions, List.foldl]

theorem digitalWrite_arr_wire (W : TwoWire β) (a : BoolArray) (s : CA9500) (w : β) :
    (digitalWrite_arr W a s w).2.2
      = (writeTransaction W s._deviceAddress OUTPUT_PORT_REGISTER
          (digitalWrite_arr W a s w).2.1._outputValue w).2 := by
  rw [digitalWrite_arr_drv]
  simp only [digitalWrite_arr, writeRegister_wire, bitPositions, List.foldl]

theorem invertPin_arr_drv (W : TwoWire β) (a : BoolArray) (s : CA9500) (w : β) :
    (invertPin_arr W a s w).2.1
      = { s with _portInverted := (bitPositions.foldl
            (fun acc bitPosition => u8 (acc ||| shl (a bitPosition).toNat bitPosition.val)) 0) } := by
  simp only [invertPin_arr, writeRegister_drv, bitPositions, List.foldl]

theorem invertPin_arr_wire (W : TwoWire β) (a : BoolArray) (s : CA9500) (w : β) :
    (invertPin_arr W a s w).2.2
      = (writeTransaction W s._deviceAddress POLARITY_INVERSION_REGISTER
          (invertPin_arr W a s w).2.1._portInverted w).2 := by
  rw [invertPin_arr_drv]
  simp only [invertPin_arr, writeRegister_wire, bitPositions, List.foldl]

theorem digitalReadPort_ret (W : TwoWire β) (a0 : BoolArray) (s : CA9500) (w : β) :
    (digitalReadPort W a0 s w).1.1 = (readRegister W INPUT_PORT_REGISTER s w).1
    ∧ ∀ j : Fin 8, (digitalReadPort W a0 s w).1.2 j
        = (readRegister W INPUT_PORT_REGISTER s w).1.testBit j.val := by
  refine ⟨rfl, fun j => ?_⟩
  simp only [digitalReadPort]
  exact unpack_loop _ _ j

end CA9500

/-- The packing loop applied to the bits of a byte gives the byte back. -/
theorem pack_loop_of_bits (a : BoolArray) (x : Nat) (hx : x < 256)
    (h : ∀ j : Fin 8, a j = x.testBit j.val) :
    bitPositions.foldl
      (fun acc bitPosition => u8 (acc ||| shl (a bitPosition).toNat bitPosition.val)) 0 = x := by
  apply eq_of_testBit_lt_8 (pack_loop_lt a) hx
  intro j hj
  rw [← h ⟨j, hj⟩]
  exact testBit_pack_loop a ⟨j, hj⟩

/-- C8. On an acknowledging simulated device whose Input Port register reads the
byte `x`, `digitalReadPort` returns `x` and fills the array with the bits of
`x`; `digitalWrite` and `invertPin` of that array send exactly `x` to the
Output Port and the Polarity Inversion register and leave `x` there; and
`digitalReadPort` of a device whose Input Port register reads the byte packed
from an array `arr` fills the array with `arr`. -/
theorem bulk_pack_unpack_identity {β : Type} (W : TwoWire β) (t : CA9500) (w : β)
    (ws : SimWire) (s : CA9500) (x : Nat) (a0 arr : BoolArray)
    (hx : x < 256) (hin : ws.dev.input = x) (hack : ws.dev.address = s._deviceAddress) :
    (CA9500.digitalReadPort simWire a0 s ws).1.1 = x
    ∧ (∀ i : Fin 8, (CA9500.digitalReadPort simWire a0 s ws).1.2 i = x.testBit i.val)
    ∧ ((CA9500.digitalWrite_arr W (CA9500.digitalReadPort simWire a0 s ws).1.2 t w).2.1._outputValue
          = x
      ∧ (CA9500.digitalWrite_arr W (CA9500.digitalReadPort simWire a0 s ws).1.2 t w).2.2
          = (writeTransaction W t._deviceAddress OUTPUT_PORT_REGISTER x w).2
      ∧ (CA9500.digitalWrite_arr simWire (CA9500.digitalReadPort simWire a0 s ws).1.2 s
          ws).2.2.dev.output = x)
    ∧ ((CA9500.invertPin_arr W (CA9500.digitalReadPort simWire a0 s ws).1.2 t w).2.1._portInverted
          = x
      ∧ (CA9500.invertPin_arr W (CA9500.digitalReadPort simWire a0 s ws).1.2 t w).2.2
          = (writeTransaction W t._deviceAddress POLARITY_INVERSION_REGISTER x w).2
      ∧ (CA9500.invertPin_arr simWire (CA9500.digitalReadPort simWire a0 s ws).1.2 s
          ws).2.2.dev.polarity = x)
    ∧ (CA9500.digitalReadPort simWire a0 s
        { ws with dev := { ws.dev with
            input := (CA9500.digitalWrite_arr simWire arr s ws).2.1._outputValue } }).1.2 = arr
    ∧ (CA9500.digitalReadPort simWire a0 s
        { ws with dev := { ws.dev with
            input := (CA9500.invertPin_arr simWire arr s ws).2.1._portInverted } }).1.2 = arr := by
  have hread : (CA9500.readRegister simWire INPUT_PORT_REGISTER s ws).1 = x := by
    rw [sim_read_input _ _ hack, hin, u8_of_lt hx]
  have hbits : ∀ i : Fin 8, (CA9500.digitalReadPort simWire a0 s ws).1.2 i = x.testBit i.val := by
    intro i
    rw [(CA9500.digitalReadPort_ret simWire a0 s ws).2 i, hread]
  have hout : ∀ {γ : Type} (V : TwoWire γ) (u : CA9500) (y : γ),
      (CA9500.digitalWrite_arr V (CA9500.digitalReadPort simWire a0 s ws).1.2 u y).2.1._outputValue
        = x := by
    intro γ V u y
    rw [CA9500.digitalWrite_arr_drv]
    exact pack_loop_of_bits _ x hx hbits
  have hpol : ∀ {γ : Type} (V : TwoWire γ) (u : CA9500) (y : γ),
      (CA9500.invertPin_arr V (CA9500.digitalReadPort simWire a0 s ws).1.2 u y).2.1._portInverted
        = x := by
    intro γ V u y
    rw [CA9500.invertPin_arr_drv]
    exact pack_loop_of_bits _ x hx hbits
  have hback : ∀ y : Nat, (∀ j : Fin 8, y.testBit j.val = arr j) →
      (CA9500.digitalReadPort simWire a0 s
        { ws with dev := { ws.dev with input := y } }).1.2 = arr := by
    intro y hy
    funext j
    have hrd := sim_read_input { ws with dev := { ws.dev with input := y } } s hack
    rw [(CA9500.digitalReadPort_ret simWire a0 s _).2 j, hrd, testBit_u8]
    simp [hy j]
  refine ⟨?_, hbits, ⟨hout W t w, ?_, ?_⟩, ⟨hpol W t w, ?_, ?_⟩, ?_, ?_⟩
  · rw [(CA9500.digitalReadPort_ret simWire a0 s ws).1, hread]
  · rw [CA9500.digitalWrite_arr_wire, hout W t w]
  · rw [CA9500.digitalWrite_arr_wire, hout simWire s ws, sim_writeTransaction _ _ _ _ hack]
    simp [SimDevice.store, u8, OUTPUT_PORT_REGISTER, Nat.mod_eq_of_lt hx]
  · rw [CA9500.invertPin_arr_wire, hpol W t w]
  · rw [CA9500.invertPin_arr_wire, hpol simWire s ws, sim_writeTransaction _ _ _ _ hack]
    simp [SimDevice.store, u8, POLARITY_INVERSION_REGISTER, OUTPUT_PORT_REGISTER,
      Nat.mod_eq_of_lt hx]
  · apply hback
    intro j
    rw [CA9500.digitalWrite_arr_drv]
    exact testBit_pack_loop arr j
  · apply hback
    intro j
    rw [CA9500.invertPin_arr_drv]
    exact testBit_pack_loop arr j

/-- C8 at a concrete input: `exDev`, whose Input Port register reads 0x5A. -/
theorem bulk_pack_unpack_identity_witness :
    (0x5A < 256 ∧ exWire.dev.input = 0x5A ∧ exWire.dev.address = exDrv._deviceAddress)
    ∧ ((CA9500.digitalReadPort simWire allFalse exDrv exWire).1.1 = 0x5A
      ∧ (∀ i : Fin 8, (CA9500.digitalReadPort simWire allFalse exDrv exWire).1.2 i
          = Nat.testBit 0x5A i.val)
      ∧ ((CA9500.digitalWrite_arr simWire (CA9500.digitalReadPort simWire allFalse exDrv exWire).1.2
            freshDrv (SimWire.idle lowPinsDev)).2.1._outputValue = 0x5A
        ∧ (CA9500.digitalWrite_arr simWire (CA9500.digitalReadPort simWire allFalse exDrv exWire).1.2
            freshDrv (SimWire.idle lowPinsDev)).2.2
            = (writeTransaction simWire freshDrv._deviceAddress OUTPUT_PORT_REGISTER 0x5A
                (SimWire.idle lowPinsDev)).2
        ∧ (CA9500.digitalWrite_arr simWire (CA9500.digitalReadPort simWire allFalse exDrv exWire).1.2
            exDrv exWire).2.2.dev.output = 0x5A)
      ∧ ((CA9500.invertPin_arr simWire (CA9500.digitalReadPort simWire allFalse exDrv exWire).1.2
            freshDrv (SimWire.idle lowPinsDev)).2.1._portInverted = 0x5A
        ∧ (CA9500.invertPin_arr simWire (CA9500.digitalReadPort simWire allFalse exDrv exWire).1.2
            freshDrv (SimWire.idle lowPinsDev)).2.2
            = (writeTransaction simWire freshDrv._deviceAddress POLARITY_INVERSION_REGISTER 0x5A
                (SimWire.idle lowPinsDev)).2
        ∧ (CA9500.invertPin_arr simWire (CA9500.digitalReadPort simWire allFalse exDrv exWire).1.2
            exDrv exWire).2.2.dev.polarity = 0x5A)
      ∧ (CA9500.digitalReadPort simWire allFalse exDrv
          { exWire with dev := { exWire.dev with
              input := (CA9500.digitalWrite_arr simWire exArr exDrv exWire).2.1._outputValue } }).1.2
          = exArr
      ∧ (CA9500.digitalReadPort simWire allFalse exDrv
          { exWire with dev := { exWire.dev with
              input := (CA9500.invertPin_arr simWire exArr exDrv exWire).2.1._portInverted } }).1.2
          = exArr) :=
  ⟨⟨by decide, rfl, rfl⟩,
    bulk_pack_unpack_identity simWire freshDrv (SimWire.idle lowPinsDev) exWire exDrv 0x5A
      allFalse exArr (by decide) rfl rfl⟩

namespace CA9500

variable {β : Type}

theorem pinMode_arr_drv (W : TwoWire β) (p : BoolArray) (s : CA9500) (w : β) :
    (pinMode_arr W p s w).2.1
      = { s with _portMode := (bitPositions.foldl
            (fun acc bitPosition => u8 (acc ||| shl (!(p bitPosition)).toNat bitPosition.val)) 0) }
    ∧ (pinMode_arr W p s w).1.2 = p := by
  simp only [pinMode_arr, writeRegister_drv, bitPositions, List.foldl, recastPullup_eq,
    Function.update_eq_self, and_self]

theorem pinMode_arr_wire (W : TwoWire β) (p : BoolArray) (s : CA9500) (w : β) :
    (pinMode_arr W p s w).2.2
      = (writeTransaction W s._deviceAddress CONFIGURATION_REGISTER
          (pinMode_arr W p s w).2.1._portMode w).2 := by
  rw [(pinMode_arr_drv W p s w).1]
  simp only [pinMode_arr, writeRegister_wire, bitPositions, List.foldl, recastPullup_eq,
    Function.update_eq_self]

end CA9500

/-- C9 as stated, refuted. The bulk `pinMode` of eight `false` puts 0xFF into the
Configuration register of `exDev`; unpacking that byte bit by bit gives eight
`true`, not the array that was packed. -/
theorem bulk_pinMode_unpack_not_identity :
    (fun i : Fin 8 =>
        (CA9500.pinMode_arr simWire allFalse exDrv exWire).2.2.dev.config.testBit i.val)
      ≠ allFalse := by
  intro h
  have h0 := congrFun h 0
  revert h0
  decide

/-- C9, amended. On an acknowledging simulated device the bulk `pinMode(p)` sends
its new mode shadow to the Configuration register, which then holds it; bit `i`
of that byte is `not p[i]`, so unpacking it bit by bit, as `getPinMode(i)`
does, gives the element-wise negation of `p`; the caller's array is left as
it was. -/
theorem bulk_pinMode_packs_negation (ws : SimWire) (s : CA9500) (p : BoolArray) (i : Fin 8)
    (hack : ws.dev.address = s._deviceAddress) :
    (CA9500.pinMode_arr simWire p s ws).2.2
        = (writeTransaction simWire s._deviceAddress CONFIGURATION_REGISTER
            (CA9500.pinMode_arr simWire p s ws).2.1._portMode ws).2
    ∧ (CA9500.pinMode_arr simWire p s ws).2.2.dev.config
        = (CA9500.pinMode_arr simWire p s ws).2.1._portMode
    ∧ (CA9500.pinMode_arr simWire p s ws).2.2.dev.config.testBit i.val = !p i
    ∧ (CA9500.getPinMode simWire i.val (CA9500.pinMode_arr simWire p s ws).2.1
        (CA9500.pinMode_arr simWire p s ws).2.2).1 = !p i
    ∧ (CA9500.pinMode_arr simWire p s ws).1.2 = p := by
  have hdrv := (CA9500.pinMode_arr_drv simWire p s ws).1
  have hcfg : (CA9500.pinMode_arr simWire p s ws).2.2.dev.config
      = (CA9500.pinMode_arr simWire p s ws).2.1._portMode
      ∧ (CA9500.pinMode_arr simWire p s ws).2.2.dev.address = s._deviceAddress := by
    have hlt := pack_loop_lt fun j => !p j
    have hreg : u8 3 = 3 := rfl
    rw [CA9500.pinMode_arr_wire, sim_writeTransaction _ _ _ _ hack, hdrv]
    simp [SimDevice.store, CONFIGURATION_REGISTER, POLARITY_INVERSION_REGISTER,
      OUTPUT_PORT_REGISTER, hack, u8_of_lt hlt, hreg]
  have hbit : (CA9500.pinMode_arr simWire p s ws).2.2.dev.config.testBit i.val = !p i := by
    rw [hcfg.1, hdrv]
    exact testBit_pack_loop (fun j => !p j) i
  refine ⟨CA9500.pinMode_arr_wire simWire p s ws, hcfg.1, hbit, ?_,
    (CA9500.pinMode_arr_drv simWire p s ws).2⟩
  have hadr : (CA9500.pinMode_arr simWire p s ws).2.2.dev.address
      = (CA9500.pinMode_arr simWire p s ws).2.1._deviceAddress := by
    rw [hcfg.2, hdrv]
  rw [CA9500.getPinMode_ret _ _ _ _ i.isLt, sim_read_config _ _ hadr, testBit_u8, hbit]
  simp

/-- C9, amended, at a concrete input: element 3 of `exArr` on `exDev`. -/
theorem bulk_pinMode_packs_negation_witness :
    exWire.dev.address = exDrv._deviceAddress
    ∧ ((CA9500.pinMode_arr simWire exArr exDrv exWire).2.2
          = (writeTransaction simWire exDrv._deviceAddress CONFIGURATION_REGISTER
              (CA9500.pinMode_arr simWire exArr exDrv exWire).2.1._portMode exWire).2
      ∧ (CA9500.pinMode_arr simWire exArr exDrv exWire).2.2.dev.config
          = (CA9500.pinMode_arr simWire exArr exDrv exWire).2.1._portMode
      ∧ (CA9500.pinMode_arr simWire exArr exDrv exWire).2.2.dev.config.testBit (3 : Fin 8).val
          = !exArr 3
      ∧ (CA9500.getPinMode simWire (3 : Fin 8).val
          (CA9500.pinMode_arr simWire exArr exDrv exWire).2.1
          (CA9500.pinMode_arr simWire exArr exDrv exWire).2.2).1 = !exArr 3
      ∧ (CA9500.pinMode_arr simWire exArr exDrv exWire).1.2 = exArr) :=
  ⟨rfl, bulk_pinMode_packs_negation exWire exDrv exArr 3 rfl⟩

/-! ## INPUT_PULLUP -/

/-- C10, evaluated. Through the `bool` parameter `INPUT_PULLUP` arrives as `true`,
the comparison with `INPUT_PULLUP` fails and the pin is made an output:
`pinMode(0, INPUT_PULLUP)` on a fresh driver writes 0xFE to the Configuration
register and leaves the mode shadow 0xFE, as `pinMode(0, OUTPUT)` does, while
`pinMode(0, INPUT)` writes 0xFF and leaves 0xFF. -/
theorem pinMode_pullup_configures_output :
    toBool INPUT_PULLUP = true
    ∧ CA9500.recastPullup (toBool INPUT_PULLUP) = true
    ∧ (CA9500.pinMode simWire 0 (toBool INPUT_PULLUP) freshDrv
        (SimWire.idle lowPinsDev)).2.2.dev.config = 0xFE
    ∧ (CA9500.pinMode simWire 0 (toBool INPUT_PULLUP) freshDrv
        (SimWire.idle lowPinsDev)).2.1._portMode = 0xFE
    ∧ (CA9500.pinMode simWire 0 (toBool INPUT) freshDrv
        (SimWire.idle lowPinsDev)).2.2.dev.config = 0xFF
    ∧ (CA9500.pinMode simWire 0 (toBool INPUT) freshDrv
        (SimWire.idle lowPinsDev)).2.1._portMode = 0xFF
    ∧ CA9500.pinMode simWire 0 (toBool INPUT_PULLUP) freshDrv (SimWire.idle lowPinsDev)
        = CA9500.pinMode simWire 0 (toBool OUTPUT) freshDrv (SimWire.idle lowPinsDev) := by
  decide

/-! ## Explicit-address overloads -/

/-- C11. Each overload with an explicit address gives the same return value, the
same final driver state and the same final bus state, on every bus (a
recording bus included), as `hexAddress(a)` followed by the form without
address. -/
theorem addr_overloads_are_hexAddress_then_plain {β : Type} (W : TwoWire β) (s : CA9500)
    (w : β) (a b : Nat) (v : Bool) :
    CA9500.pinMode_addr W b v a s w
        = CA9500.pinMode W b v (CA9500.hexAddress W a s w).2.1 (CA9500.hexAddress W a s w).2.2
    ∧ CA9500.getPinMode_addr W b a s w
        = CA9500.getPinMode W b (CA9500.hexAddress W a s w).2.1 (CA9500.hexAddress W a s w).2.2
    ∧ CA9500.invertPin_addr W b v a s w
        = CA9500.invertPin W b v (CA9500.hexAddress W a s w).2.1 (CA9500.hexAddress W a s w).2.2
    ∧ CA9500.isPinInverted_addr W b a s w
        = CA9500.isPinInverted W b (CA9500.hexAddress W a s w).2.1 (CA9500.hexAddress W a s w).2.2
    ∧ CA9500.digitalWrite_addr W b v a s w
        = CA9500.digitalWrite W b v (CA9500.hexAddress W a s w).2.1 (CA9500.hexAddress W a s w).2.2
    ∧ CA9500.digitalRead_addr W b a s w
        = CA9500.digitalRead W b (CA9500.hexAddress W a s w).2.1 (CA9500.hexAddress W a s w).2.2
    ∧ CA9500.ping_addr W a s w
        = CA9500.ping W (CA9500.hexAddress W a s w).2.1 (CA9500.hexAddress W a s w).2.2
    ∧ CA9500.SoftReset_addr W a s w
        = CA9500.SoftReset W (CA9500.hexAddress W a s w).2.1 (CA9500.hexAddress W a s w).2.2 :=
  ⟨rfl, rfl, rfl, rfl, rfl, rfl, rfl, rfl⟩

/-! ## SoftReset and the shadows -/

theorem CA9500.resetRegisters_drv {β : Type} (W : TwoWire β) (s : CA9500) (w : β) :
    (CA9500.resetRegisters W s w).2.1 = s := rfl

/-- C12. `SoftReset()` and `resetRegisters()` return the driver state they were
given, whatever the bus answers, so the three shadows and the selected address
are as before; an `invertPin(b, v)` or `pinMode(b, d)` right after the reset
leaves the shadow it would have left without the reset, whose bits other than
`b` are those of the shadow before the reset. -/
theorem softReset_keeps_shadows {β : Type} (W : TwoWire β) (s : CA9500) (w : β)
    (b j : Nat) (v d : Bool) (hb : b < 8) (hj : j < 8) (hjb : j ≠ b) :
    (CA9500.SoftReset W s w).2.1 = s
    ∧ (CA9500.resetRegisters W s w).2.1 = s
    ∧ (CA9500.SoftReset W s w).2.1.shadows = s.shadows
    ∧ (CA9500.SoftReset W s w).2.1._deviceAddress = s._deviceAddress
    ∧ ((CA9500.invertPin W b v (CA9500.SoftReset W s w).2.1
          (CA9500.SoftReset W s w).2.2).2.1._portInverted
        = (CA9500.invertPin W b v s w).2.1._portInverted
      ∧ (CA9500.invertPin W b v (CA9500.SoftReset W s w).2.1
          (CA9500.SoftReset W s w).2.2).2.1._portInverted.testBit j = s._portInverted.testBit j)
    ∧ ((CA9500.pinMode W b d (CA9500.SoftReset W s w).2.1
          (CA9500.SoftReset W s w).2.2).2.1._portMode
        = (CA9500.pinMode W b d s w).2.1._portMode
      ∧ (CA9500.pinMode W b d (CA9500.SoftReset W s w).2.1
          (CA9500.SoftReset W s w).2.2).2.1._portMode.testBit j = s._portMode.testBit j) := by
  have _hb : b < 8 := hb
  have hreset : (CA9500.SoftReset W s w).2.1 = s := rfl
  refine ⟨rfl, rfl, rfl, rfl, ⟨?_, ?_⟩, ⟨?_, ?_⟩⟩
  · rw [hreset, CA9500.invertPin_drv, CA9500.invertPin_drv]
  · rw [hreset, CA9500.invertPin_drv]
    simp only [testBit_patch _ _ _ _ hj, if_neg hjb]
  · rw [hreset, CA9500.pinMode_drv, CA9500.pinMode_drv]
  · rw [hreset, CA9500.pinMode_drv]
    simp only [testBit_patch _ _ _ _ hj, if_neg hjb]

/-- C12 at a concrete input: `staleDrv`, whose polarity shadow 0xC3 has bit 6 set
and whose mode shadow 0x0F has bit 6 clear, the opposite of the values the
reset sends; bit 2 is written, bit 6 observed. -/
theorem softReset_keeps_shadows_witness :
    (2 < 8 ∧ 6 < 8 ∧ 6 ≠ 2)
    ∧ ((CA9500.SoftReset simWire staleDrv exWire).2.1 = staleDrv
      ∧ (CA9500.resetRegisters simWire staleDrv exWire).2.1 = staleDrv
      ∧ (CA9500.SoftReset simWire staleDrv exWire).2.1.shadows = staleDrv.shadows
      ∧ (CA9500.SoftReset simWire staleDrv exWire).2.1._deviceAddress = staleDrv._deviceAddress
      ∧ ((CA9500.invertPin simWire 2 true (CA9500.SoftReset simWire staleDrv exWire).2.1
            (CA9500.SoftReset simWire staleDrv exWire).2.2).2.1._portInverted
          = (CA9500.invertPin simWire 2 true staleDrv exWire).2.1._portInverted
        ∧ (CA9500.invertPin simWire 2 true (CA9500.SoftReset simWire staleDrv exWire).2.1
            (CA9500.SoftReset simWire staleDrv exWire).2.2).2.1._portInverted.testBit 6
          = staleDrv._portInverted.testBit 6)
      ∧ ((CA9500.pinMode simWire 2 true (CA9500.SoftReset simWire staleDrv exWire).2.1
            (CA9500.SoftReset simWire staleDrv exWire).2.2).2.1._portMode
          = (CA9500.pinMode simWire 2 true staleDrv exWire).2.1._portMode
        ∧ (CA9500.pinMode simWire 2 true (CA9500.SoftReset simWire staleDrv exWire).2.1
            (CA9500.SoftReset simWire staleDrv exWire).2.2).2.1._portMode.testBit 6
          = staleDrv._portMode.testBit 6)) :=
  ⟨⟨by decide, by decide, by decide⟩,
    softReset_keeps_shadows simWire staleDrv exWire 2 6 true true
      (by decide) (by decide) (by decide)⟩

/-! ## readRegister -/

/-- C13. `readRegister(r)` returns 0 when the read request for one byte receives
no byte and otherwise the received byte converted to `uint8_t`; replacing the
status code of the preceding write transaction by any other leaves the whole
result unchanged. On the simulated bus: the selected register itself when the
device answers, 0 when no device answers. -/
theorem readRegister_result {β : Type} (W : TwoWire β) (s : CA9500) (w : β) (r : Nat)
    (status : β → Nat) (ws wn : SimWire)
    (hack : ws.dev.address = s._deviceAddress)
    (hbyte : SimDevice.selected { ws.dev with pointer := u8 r } < 256)
    (hnack : wn.dev.address ≠ s._deviceAddress) :
    (CA9500.readRegister W r s w).1
        = (if (W.requestFrom s._deviceAddress 1
              (W.endTransmission (W.write r (W.beginTransmission s._deviceAddress w))).2).1 = 0
            then 0
            else intToU8 (W.read (W.requestFrom s._deviceAddress 1
              (W.endTransmission (W.write r (W.beginTransmission s._deviceAddress w))).2).2).1)
    ∧ CA9500.readRegister (withStatus W status) r s w = CA9500.readRegister W r s w
    ∧ (CA9500.readRegister simWire r s ws).1 = SimDevice.selected { ws.dev with pointer := u8 r }
    ∧ (CA9500.readRegister simWire r s wn).1 = 0 := by
  refine ⟨?_, rfl, ?_, ?_⟩
  · simp only [CA9500.readRegister]
    split <;> simp_all
  · rw [sim_readRegister _ _ _ hack]
    exact u8_of_lt hbyte
  · simp [CA9500.readRegister, simWire, SimWire.beginTransmission, SimWire.write,
      SimWire.endTransmission, SimWire.requestFrom, Ne.symm hnack]

/-- C13 at a concrete input: register 0x02 of `exDev` read at its address 0x70,
and the same read on `farWire`, where nothing answers at 0x70. -/
theorem readRegister_result_witness :
    (exWire.dev.address = exDrv._deviceAddress
      ∧ SimDevice.selected { exWire.dev with pointer := u8 0x02 } < 256
      ∧ farWire.dev.address ≠ exDrv._deviceAddress)
    ∧ ((CA9500.readRegister simWire 0x02 exDrv exWire).1
          = (if (simWire.requestFrom exDrv._deviceAddress 1
                (simWire.endTransmission
                  (simWire.write 0x02 (simWire.beginTransmission exDrv._deviceAddress exWire))).2).1
                = 0
              then 0
              else intToU8 (simWire.read (simWire.requestFrom exDrv._deviceAddress 1
                (simWire.endTransmission
                  (simWire.write 0x02
                    (simWire.beginTransmission exDrv._deviceAddress exWire))).2).2).1)
      ∧ CA9500.readRegister (withStatus simWire fun _ => 4) 0x02 exDrv exWire
          = CA9500.readRegister simWire 0x02 exDrv exWire
      ∧ (CA9500.readRegister simWire 0x02 exDrv exWire).1
          = SimDevice.selected { exWire.dev with pointer := u8 0x02 }
      ∧ (CA9500.readRegister simWire 0x02 exDrv farWire).1 = 0) :=
  ⟨⟨rfl, by decide, by decide⟩,
    readRegister_result simWire exDrv exWire 0x02 (fun _ => 4) exWire farWire
      rfl (by decide) (by decide)⟩

/-! ## The reset transaction -/

/-- C14. On every bus `SoftReset()` makes exactly these calls, in order: one
`beginTransmission` to the selected address, the six `write` calls 0x03, 0xFF,
0x02, 0x00, 0x01, 0x00 and one `endTransmission`; it returns the status code of
that `endTransmission`: 0 from the answering device `exDev`, 2 on `farWire`. -/
theorem softReset_single_transaction {β : Type} (W : TwoWire β) (s : CA9500) (w : β)
    (log : List BusCall) :
    (CA9500.SoftReset (recording W) s (log, w)).2.2.1
        = log ++ [BusCall.beginTransmission s._deviceAddress, BusCall.write 0x03,
            BusCall.write 0xFF, BusCall.write 0x02, BusCall.write 0x00, BusCall.write 0x01,
            BusCall.write 0x00, BusCall.endTransmission]
    ∧ (CA9500.SoftReset (recording W) s (log, w)).2.2.2 = (CA9500.SoftReset W s w).2.2
    ∧ (CA9500.SoftReset (recording W) s (log, w)).1 = (CA9500.SoftReset W s w).1
    ∧ (CA9500.SoftReset W s w).1
        = (W.endTransmission (W.write 0x00 (W.write 0x01 (W.write 0x00 (W.write 0x02
            (W.write 0xFF (W.write 0x03 (W.beginTransmission s._deviceAddress w))))))) ).1
    ∧ (CA9500.SoftReset W s w).2.2
        = (W.endTransmission (W.write 0x00 (W.write 0x01 (W.write 0x00 (W.write 0x02
            (W.write 0xFF (W.write 0x03 (W.beginTransmission s._deviceAddress w))))))) ).2
    ∧ (CA9500.SoftReset simWire exDrv exWire).1 = 0
    ∧ (CA9500.SoftReset simWire exDrv farWire).1 = 2 := by
  refine ⟨?_, rfl, rfl, rfl, rfl, by decide, by decide⟩
  simp [CA9500.SoftReset, CA9500.resetRegisters, recording, CONFIGURATION_REGISTER,
    POLARITY_INVERSION_REGISTER, OUTPUT_PORT_REGISTER]

/-! ## writeBit -/

theorem CA9500.writeBit_drv {β : Type} (W : TwoWire β) (r b : Nat) (v : Bool) (s : CA9500)
    (w : β) :
    (CA9500.writeBit W r b v s w).2.1
      = { s with _portMode := u8 (u8 (s._portMode &&& bnot (shl 1 b)) ||| shl v.toNat b) } := by
  simp only [CA9500.writeBit, CA9500.writeRegister_drv]

theorem CA9500.writeBit_wire {β : Type} (W : TwoWire β) (r b : Nat) (v : Bool) (s : CA9500)
    (w : β) :
    (CA9500.writeBit W r b v s w).2.2
      = (writeTransaction W s._deviceAddress r (CA9500.writeBit W r b v s w).2.1._portMode w).2 := by
  rw [CA9500.writeBit_drv]
  simp only [CA9500.writeBit, CA9500.writeRegister_wire]

/-- C15. For every register address `r`, `writeBit(r, b, v)` sets bit `b` of the
mode shadow to `v`, keeps its other bits, sends the new mode shadow to register
`r` and leaves the output and polarity shadows alone; the byte is the same for
any other register address, bus, device content and driver state with the
same mode shadow. On an answering simulated device the Output Port register
(`r` = 0x01) or the Polarity Inversion register (`r` = 0x02) ends up holding the
mode shadow. -/
theorem writeBit_patches_mode_shadow {β γ : Type} (W : TwoWire β) (V : TwoWire γ)
    (s t : CA9500) (w : β) (x : γ) (ws : SimWire) (r q b j : Nat) (v : Bool)
    (hb : b < 8) (hj : j < 8) (hmode : t._portMode = s._portMode)
    (hack : ws.dev.address = s._deviceAddress) :
    (CA9500.writeBit W r b v s w).2.2
        = (writeTransaction W s._deviceAddress r (CA9500.writeBit W r b v s w).2.1._portMode w).2
    ∧ (CA9500.writeBit W r b v s w).2.1._portMode.testBit b = v
    ∧ (CA9500.writeBit W r b v s w).2.1._portMode.testBit j
        = (if j = b then v else s._portMode.testBit j)
    ∧ (CA9500.writeBit W r b v s w).2.1._outputValue = s._outputValue
    ∧ (CA9500.writeBit W r b v s w).2.1._portInverted = s._portInverted
    ∧ (CA9500.writeBit V q b v t x).2.1._portMode = (CA9500.writeBit W r b v s w).2.1._portMode
    ∧ (CA9500.writeBit simWire OUTPUT_PORT_REGISTER b v s ws).2.2.dev.output
        = (CA9500.writeBit simWire OUTPUT_PORT_REGISTER b v s ws).2.1._portMode
    ∧ (CA9500.writeBit simWire POLARITY_INVERSION_REGISTER b v s ws).2.2.dev.polarity
        = (CA9500.writeBit simWire POLARITY_INVERSION_REGISTER b v s ws).2.1._portMode := by
  have hbits : ∀ k, k < 8 → (CA9500.writeBit W r b v s w).2.1._portMode.testBit k
      = (if k = b then v else s._portMode.testBit k) := by
    intro k hk
    rw [CA9500.writeBit_drv]
    exact testBit_patch _ _ _ _ hk
  refine ⟨CA9500.writeBit_wire W r b v s w, ?_, hbits j hj, ?_, ?_, ?_, ?_, ?_⟩
  · rw [hbits b hb, if_pos rfl]
  · rw [CA9500.writeBit_drv]
  · rw [CA9500.writeBit_drv]
  · rw [CA9500.writeBit_drv, CA9500.writeBit_drv, hmode]
  · rw [CA9500.writeBit_wire, sim_writeTransaction _ _ _ _ hack, CA9500.writeBit_drv]
    simp [SimDevice.store, u8, OUTPUT_PORT_REGISTER]
  · rw [CA9500.writeBit_wire, sim_writeTransaction _ _ _ _ hack, CA9500.writeBit_drv]
    simp [SimDevice.store, u8, POLARITY_INVERSION_REGISTER, OUTPUT_PORT_REGISTER]

/-- C15 at a concrete input: bit 4 written through register 0x01 on `exDev` from
`exDrv` (mode shadow 0xA5), compared with register 0x02 on `farWire` from a
driver state with the same mode shadow and other output and polarity shadows. -/
theorem writeBit_patches_mode_shadow_witness :
    (4 < 8 ∧ 1 < 8 ∧ ({ staleDrv with _portMode := 0xA5 } : CA9500)._portMode = exDrv._portMode
      ∧ exWire.dev.address = exDrv._deviceAddress)
    ∧ ((CA9500.writeBit simWire 0x01 4 true exDrv exWire).2.2
          = (writeTransaction simWire exDrv._deviceAddress 0x01
              (CA9500.writeBit simWire 0x01 4 true exDrv exWire).2.1._portMode exWire).2
      ∧ (CA9500.writeBit simWire 0x01 4 true exDrv exWire).2.1._portMode.testBit 4 = true
      ∧ (CA9500.writeBit simWire 0x01 4 true exDrv exWire).2.1._portMode.testBit 1
          = (if 1 = 4 then true else exDrv._portMode.testBit 1)
      ∧ (CA9500.writeBit simWire 0x01 4 true exDrv exWire).2.1._outputValue = exDrv._outputValue
      ∧ (CA9500.writeBit simWire 0x01 4 true exDrv exWire).2.1._portInverted
          = exDrv._portInverted
      ∧ (CA9500.writeBit simWire 0x02 4 true { staleDrv with _portMode := 0xA5 } farWire).2.1._portMode
          = (CA9500.writeBit simWire 0x01 4 true exDrv exWire).2.1._portMode
      ∧ (CA9500.writeBit simWire OUTPUT_PORT_REGISTER 4 true exDrv exWire).2.2.dev.output
          = (CA9500.writeBit simWire OUTPUT_PORT_REGISTER 4 true exDrv exWire).2.1._portMode
      ∧ (CA9500.writeBit simWire POLARITY_INVERSION_REGISTER 4 true exDrv exWire).2.2.dev.polarity
          = (CA9500.writeBit simWire POLARITY_INVERSION_REGISTER 4 true exDrv exWire).2.1._portMode) :=
  ⟨⟨by decide, by decide, rfl, rfl⟩,
    writeBit_patches_mode_shadow simWire simWire exDrv { staleDrv with _portMode := 0xA5 }
      exWire farWire exWire 0x01 0x02 4 1 true (by decide) (by decide) rfl rfl⟩

/-! ## Frame conditions on the shadows -/

/-- The read operations store into `_inputValue` only. -/
theorem CA9500.digitalRead_drv {β : Type} (W : TwoWire β) (b : Nat) (s : CA9500) (w : β) :
    (CA9500.digitalRead W b s w).2.1
      = { s with _inputValue := (CA9500.readRegister W INPUT_PORT_REGISTER s w).1 } := by
  simp only [CA9500.digitalRead, CA9500.readRegister_drv]

theorem CA9500.digitalReadPort_drv {β : Type} (W : TwoWire β) (arr : BoolArray) (s : CA9500)
    (w : β) :
    (CA9500.digitalReadPort W arr s w).2.1
      = { s with _inputValue := (CA9500.readRegister W INPUT_PORT_REGISTER s w).1 } := by
  simp only [CA9500.digitalReadPort, CA9500.readRegister_drv]

theorem CA9500.getPinMode_drv {β : Type} (W : TwoWire β) (b : Nat) (s : CA9500) (w : β) :
    (CA9500.getPinMode W b s w).2.1
      = { s with _inputValue := (CA9500.readRegister W CONFIGURATION_REGISTER s w).1 } := by
  simp only [CA9500.getPinMode, CA9500.readRegister_drv]

theorem CA9500.isPinInverted_drv {β : Type} (W : TwoWire β) (b : Nat) (s : CA9500) (w : β) :
    (CA9500.isPinInverted W b s w).2.1
      = { s with _inputValue := (CA9500.readRegister W POLARITY_INVERSION_REGISTER s w).1 } := by
  simp only [CA9500.isPinInverted, CA9500.readRegister_drv]

theorem CA9500.readBit_drv {β : Type} (W : TwoWire β) (r b : Nat) (s : CA9500) (w : β) :
    (CA9500.readBit W r b s w).2.1 = s := by
  simp only [CA9500.readBit, CA9500.readRegister_drv]

theorem CA9500.hexCheck_drv {β : Type} (W : TwoWire β) (a : Nat) (s : CA9500) (w : β) :
    (CA9500.hexCheck W a s w).2.1 = { s with _deviceAddress := a } := by
  simp only [CA9500.hexCheck]
  split <;> rfl

/-- C16. `pinMode`, single, with address and bulk, leaves the output and polarity
shadows as they were; `invertPin` the output and mode shadows; `digitalWrite`
the mode and polarity shadows; and `readBit`, `readRegister`, `writeRegister`,
`digitalRead`, `digitalReadPort`, `getPinMode`, `isPinInverted`, `ping` and
`hexCheck` leave all three shadows as they were. -/
theorem shadows_change_only_by_own_writes {β : Type} (W : TwoWire β) (s : CA9500) (w : β)
    (a b r val : Nat) (v : Bool) (arr : BoolArray) :
    (((CA9500.pinMode W b v s w).2.1._outputValue = s._outputValue
        ∧ (CA9500.pinMode W b v s w).2.1._portInverted = s._portInverted)
      ∧ ((CA9500.pinMode_addr W b v a s w).2.1._outputValue = s._outputValue
        ∧ (CA9500.pinMode_addr W b v a s w).2.1._portInverted = s._portInverted)
      ∧ ((CA9500.pinMode_arr W arr s w).2.1._outputValue = s._outputValue
        ∧ (CA9500.pinMode_arr W arr s w).2.1._portInverted = s._portInverted))
    ∧ (((CA9500.invertPin W b v s w).2.1._outputValue = s._outputValue
        ∧ (CA9500.invertPin W b v s w).2.1._portMode = s._portMode)
      ∧ ((CA9500.invertPin_addr W b v a s w).2.1._outputValue = s._outputValue
        ∧ (CA9500.invertPin_addr W b v a s w).2.1._portMode = s._portMode)
      ∧ ((CA9500.invertPin_arr W arr s w).2.1._outputValue = s._outputValue
        ∧ (CA9500.invertPin_arr W arr s w).2.1._portMode = s._portMode))
    ∧ (((CA9500.digitalWrite W b v s w).2.1._portMode = s._portMode
        ∧ (CA9500.digitalWrite W b v s w).2.1._portInverted = s._portInverted)
      ∧ ((CA9500.digitalWrite_addr W b v a s w).2.1._portMode = s._portMode
        ∧ (CA9500.digitalWrite_addr W b v a s w).2.1._portInverted = s._portInverted)
      ∧ ((CA9500.digitalWrite_arr W arr s w).2.1._portMode = s._portMode
        ∧ (CA9500.digitalWrite_arr W arr s w).2.1._portInverted = s._portInverted))
    ∧ ((CA9500.readBit W r b s w).2.1.shadows = s.shadows
      ∧ (CA9500.readRegister W r s w).2.1.shadows = s.shadows
      ∧ (CA9500.writeRegister W r val s w).2.1.shadows = s.shadows
      ∧ (CA9500.digitalRead W b s w).2.1.shadows = s.shadows
      ∧ (CA9500.digitalRead_addr W b a s w).2.1.shadows = s.shadows
      ∧ (CA9500.digitalReadPort W arr s w).2.1.shadows = s.shadows
      ∧ (CA9500.getPinMode W b s w).2.1.shadows = s.shadows
      ∧ (CA9500.getPinMode_addr W b a s w).2.1.shadows = s.shadows
      ∧ (CA9500.isPinInverted W b s w).2.1.shadows = s.shadows
      ∧ (CA9500.isPinInverted_addr W b a s w).2.1.shadows = s.shadows
      ∧ (CA9500.ping W s w).2.1.shadows = s.shadows
      ∧ (CA9500.ping_addr W a s w).2.1.shadows = s.shadows
      ∧ (CA9500.hexCheck W a s w).2.1.shadows = s.shadows) := by
  have hpa : CA9500.pinMode_addr W b v a s w
      = CA9500.pinMode W b v { s with _deviceAddress := a } w := rfl
  have hia : CA9500.invertPin_addr W b v a s w
      = CA9500.invertPin W b v { s with _deviceAddress := a } w := rfl
  have hwa : CA9500.digitalWrite_addr W b v a s w
      = CA9500.digitalWrite W b v { s with _deviceAddress := a } w := rfl
  have hra : CA9500.digitalRead_addr W b a s w
      = CA9500.digitalRead W b { s with _deviceAddress := a } w := rfl
  have hga : CA9500.getPinMode_addr W b a s w
      = CA9500.getPinMode W b { s with _deviceAddress := a } w := rfl
  have hna : CA9500.isPinInverted_addr W b a s w
      = CA9500.isPinInverted W b { s with _deviceAddress := a } w := rfl
  simp only [CA9500.shadows, hpa, hia, hwa, hra, hga, hna, CA9500.pinMode_drv,
    CA9500.pinMode_arr_drv, CA9500.invertPin_drv, CA9500.invertPin_arr_drv,
    CA9500.digitalWrite_drv, CA9500.digitalWrite_arr_drv, CA9500.digitalRead_drv,
    CA9500.digitalReadPort_drv, CA9500.getPinMode_drv, CA9500.isPinInverted_drv,
    CA9500.readBit_drv,
    CA9500.readRegister_drv, CA9500.writeRegister_drv, CA9500.hexCheck_drv, CA9500.ping,
    CA9500.ping_addr, and_self]

/-! ## Bit extraction -/

/-- The extraction `(x & (1 << b)) >> b` converted to `bool` is bit `b` of `x`. -/
theorem toBool_and_shl_shr (x b : Nat) (hb : b < 16) :
    toBool ((x &&& shl 1 b) >>> b) = x.testBit b := by
  have hmask := toBool_and_shl x b hb
  unfold toBool at hmask ⊢
  cases hx : x.testBit b
  · rw [hx] at hmask
    have h0 : x &&& shl 1 b = 0 := by simpa using hmask
    simp [h0]
  · have h1 : ((x &&& shl 1 b) >>> b).testBit 0 = true := by
      rw [Nat.testBit_shiftRight, Nat.testBit_and, testBit_shl, testBit_one]
      simp [hx, hb]
    have hne : (x &&& shl 1 b) >>> b ≠ 0 := by
      intro h0
      rw [h0, Nat.zero_testBit] at h1
      exact Bool.noConfusion h1
    simpa using hne

theorem CA9500.readBit_ret {β : Type} (W : TwoWire β) (r b : Nat) (s : CA9500) (w : β)
    (hb : b < 8) :
    (CA9500.readBit W r b s w).1 = (CA9500.readRegister W r s w).1.testBit b := by
  simp only [CA9500.readBit]
  exact toBool_and_shl_shr _ _ (by omega)

theorem CA9500.digitalRead_ret {β : Type} (W : TwoWire β) (b : Nat) (s : CA9500) (w : β)
    (hb : b < 8) :
    (CA9500.digitalRead W b s w).1
      = (CA9500.readRegister W INPUT_PORT_REGISTER s w).1.testBit b := by
  simp only [CA9500.digitalRead]
  exact toBool_and_shl _ _ (by omega)

/-- C17. For a bit index `b` in 0..7, on every bus `digitalRead(b)`,
`isPinInverted(b)` and `getPinMode(b)` return what `readBit` returns for the
Input Port, Polarity Inversion and Configuration register, the two extractions
agree on every value `x`, and on an answering simulated device each call
returns `true` exactly when bit `b` of its register is 1. -/
theorem bit_reads_agree_with_readBit {β : Type} (W : TwoWire β) (s : CA9500) (w : β)
    (ws : SimWire) (b x : Nat) (hb : b < 8) (hack : ws.dev.address = s._deviceAddress) :
    ((CA9500.digitalRead W b s w).1 = (CA9500.readBit W INPUT_PORT_REGISTER b s w).1
      ∧ (CA9500.isPinInverted W b s w).1
          = (CA9500.readBit W POLARITY_INVERSION_REGISTER b s w).1
      ∧ (CA9500.getPinMode W b s w).1 = (CA9500.readBit W CONFIGURATION_REGISTER b s w).1)
    ∧ (toBool (x &&& shl 1 b) = toBool ((x &&& shl 1 b) >>> b)
      ∧ toBool (x &&& shl 1 b) = x.testBit b)
    ∧ ((CA9500.digitalRead simWire b s ws).1 = ws.dev.input.testBit b
      ∧ (CA9500.isPinInverted simWire b s ws).1 = ws.dev.polarity.testBit b
      ∧ (CA9500.getPinMode simWire b s ws).1 = ws.dev.config.testBit b) := by
  have h16 : b < 16 := by omega
  refine ⟨⟨?_, ?_, ?_⟩, ⟨?_, toBool_and_shl x b h16⟩, ⟨?_, ?_, ?_⟩⟩
  · rw [CA9500.digitalRead_ret _ _ _ _ hb, CA9500.readBit_ret _ _ _ _ _ hb]
  · rw [CA9500.isPinInverted_ret _ _ _ _ hb, CA9500.readBit_ret _ _ _ _ _ hb]
  · rw [CA9500.getPinMode_ret _ _ _ _ hb, CA9500.readBit_ret _ _ _ _ _ hb]
  · rw [toBool_and_shl x b h16, toBool_and_shl_shr x b h16]
  · rw [CA9500.digitalRead_ret _ _ _ _ hb, sim_read_input _ _ hack, testBit_u8]
    simp [hb]
  · rw [CA9500.isPinInverted_ret _ _ _ _ hb, sim_read_polarity _ _ hack, testBit_u8]
    simp [hb]
  · rw [CA9500.getPinMode_ret _ _ _ _ hb, sim_read_config _ _ hack, testBit_u8]
    simp [hb]

/-- C17 at a concrete input: bit 4 of the registers of `exDev` and of 0x5A. -/
theorem bit_reads_agree_with_readBit_witness :
    (4 < 8 ∧ exWire.dev.address = exDrv._deviceAddress)
    ∧ (((CA9500.digitalRead simWire 4 exDrv exWire).1
          = (CA9500.readBit simWire INPUT_PORT_REGISTER 4 exDrv exWire).1
        ∧ (CA9500.isPinInverted simWire 4 exDrv exWire).1
            = (CA9500.readBit simWire POLARITY_INVERSION_REGISTER 4 exDrv exWire).1
        ∧ (CA9500.getPinMode simWire 4 exDrv exWire).1
            = (CA9500.readBit simWire CONFIGURATION_REGISTER 4 exDrv exWire).1)
      ∧ (toBool (0x5A &&& shl 1 4) = toBool ((0x5A &&& shl 1 4) >>> 4)
        ∧ toBool (0x5A &&& shl 1 4) = Nat.testBit 0x5A 4)
      ∧ ((CA9500.digitalRead simWire 4 exDrv exWire).1 = exWire.dev.input.testBit 4
        ∧ (CA9500.isPinInverted simWire 4 exDrv exWire).1 = exWire.dev.polarity.testBit 4
        ∧ (CA9500.getPinMode simWire 4 exDrv exWire).1 = exWire.dev.config.testBit 4)) :=
  ⟨⟨by decide, rfl⟩,
    bit_reads_agree_with_readBit simWire exDrv exWire exWire 4 0x5A (by decide) rfl⟩

/-! ## Shadows and unacknowledged writes -/

/-- A write transaction to an address at which the simulated device does not
answer ends with status 2 and leaves the device as it was. -/
theorem sim_writeTransaction_nack (ws : SimWire) (a reg val : Nat) (h : ws.dev.address ≠ a) :
    writeTransaction simWire a reg val ws
      = (2, { dev := ws.dev, txAddress := a, txBuffer := [], rxBuffer := ws.rxBuffer }) := by
  simp [writeTransaction, simWire, SimWire.beginTransmission, SimWire.write,
    SimWire.endTransmission, Ne.symm h]

theorem CA9500.invertPin_ret {β : Type} (W : TwoWire β) (b : Nat) (v : Bool) (s : CA9500)
    (w : β) :
    (CA9500.invertPin W b v s w).1
      = decide ((writeTransaction W s._deviceAddress POLARITY_INVERSION_REGISTER
          (CA9500.invertPin W b v s w).2.1._portInverted w).1 = 0) := by
  rw [CA9500.invertPin_drv]
  simp only [CA9500.invertPin, CA9500.writeRegister_ret]

theorem CA9500.pinMode_ret {β : Type} (W : TwoWire β) (b : Nat) (d : Bool) (s : CA9500)
    (w : β) :
    (CA9500.pinMode W b d s w).1
      = decide ((writeTransaction W s._deviceAddress CONFIGURATION_REGISTER
          (CA9500.pinMode W b d s w).2.1._portMode w).1 = 0) := by
  rw [CA9500.pinMode_drv]
  simp only [CA9500.pinMode, CA9500.writeRegister_ret, CA9500.recastPullup_eq]

theorem CA9500.digitalWrite_arr_ret {β : Type} (W : TwoWire β) (a : BoolArray) (s : CA9500)
    (w : β) :
    (CA9500.digitalWrite_arr W a s w).1
      = decide ((writeTransaction W s._deviceAddress OUTPUT_PORT_REGISTER
          (CA9500.digitalWrite_arr W a s w).2.1._outputValue w).1 = 0) := by
  rw [CA9500.digitalWrite_arr_drv]
  simp only [CA9500.digitalWrite_arr, CA9500.writeRegister_ret, bitPositions, List.foldl]

theorem CA9500.invertPin_arr_ret {β : Type} (W : TwoWire β) (a : BoolArray) (s : CA9500)
    (w : β) :
    (CA9500.invertPin_arr W a s w).1
      = decide ((writeTransaction W s._deviceAddress POLARITY_INVERSION_REGISTER
          (CA9500.invertPin_arr W a s w).2.1._portInverted w).1 = 0) := by
  rw [CA9500.invertPin_arr_drv]
  simp only [CA9500.invertPin_arr, CA9500.writeRegister_ret, bitPositions, List.foldl]

theorem CA9500.pinMode_arr_ret {β : Type} (W : TwoWire β) (p : BoolArray) (s : CA9500)
    (w : β) :
    (CA9500.pinMode_arr W p s w).1.1
      = decide ((writeTransaction W s._deviceAddress CONFIGURATION_REGISTER
          (CA9500.pinMode_arr W p s w).2.1._portMode w).1 = 0) := by
  rw [(CA9500.pinMode_arr_drv W p s w).1]
  simp only [CA9500.pinMode_arr, CA9500.writeRegister_ret, bitPositions, List.foldl,
    CA9500.recastPullup_eq, Function.update_eq_self]

/-- C18. The polarity shadow after `invertPin(b, v)`, the mode shadow after
`pinMode(b, v)` and the shadow after each bulk write are the same on any two
buses in any two bus states, so they do not depend on what the bus answers.
On a simulated bus where nothing answers at the selected address `invertPin`,
`pinMode` and the three bulk writes `digitalWrite`, `invertPin`, `pinMode` of
an array all return `false` and leave the device as it was, while the shadow
holds the byte of the failed transaction: bit `b` already written for the
single-pin writes, bit `i` equal to `arr[i]` (`not arr[i]` for `pinMode`) for
the bulk writes. On every bus each of the five calls runs the write
transaction of its new shadow and returns whether that transaction ended with
status 0. -/
theorem shadow_updated_before_acknowledge {β γ : Type} (W : TwoWire β) (V : TwoWire γ)
    (s : CA9500) (w : β) (x : γ) (wn : SimWire) (b : Nat) (v : Bool) (arr : BoolArray)
    (i : Fin 8) (hb : b < 8) (hnack : wn.dev.address ≠ s._deviceAddress) :
    ((CA9500.invertPin W b v s w).2.1._portInverted = (CA9500.invertPin V b v s x).2.1._portInverted
      ∧ (CA9500.pinMode W b v s w).2.1._portMode = (CA9500.pinMode V b v s x).2.1._portMode
      ∧ (CA9500.digitalWrite_arr W arr s w).2.1._outputValue
          = (CA9500.digitalWrite_arr V arr s x).2.1._outputValue
      ∧ (CA9500.invertPin_arr W arr s w).2.1._portInverted
          = (CA9500.invertPin_arr V arr s x).2.1._portInverted
      ∧ (CA9500.pinMode_arr W arr s w).2.1._portMode
          = (CA9500.pinMode_arr V arr s x).2.1._portMode)
    ∧ ((CA9500.invertPin simWire b v s wn).1 = false
      ∧ (CA9500.invertPin simWire b v s wn).2.2.dev = wn.dev
      ∧ (CA9500.invertPin simWire b v s wn).2.2
          = (writeTransaction simWire s._deviceAddress POLARITY_INVERSION_REGISTER
              (CA9500.invertPin simWire b v s wn).2.1._portInverted wn).2
      ∧ (CA9500.invertPin simWire b v s wn).2.1._portInverted.testBit b = v)
    ∧ ((CA9500.pinMode simWire b v s wn).1 = false
      ∧ (CA9500.pinMode simWire b v s wn).2.2.dev = wn.dev
      ∧ (CA9500.pinMode simWire b v s wn).2.2
          = (writeTransaction simWire s._deviceAddress CONFIGURATION_REGISTER
              (CA9500.pinMode simWire b v s wn).2.1._portMode wn).2
      ∧ (CA9500.pinMode simWire b v s wn).2.1._portMode.testBit b = !v)
    ∧ ((CA9500.digitalWrite_arr simWire arr s wn).1 = false
      ∧ (CA9500.digitalWrite_arr simWire arr s wn).2.2.dev = wn.dev
      ∧ (CA9500.digitalWrite_arr simWire arr s wn).2.2
          = (writeTransaction simWire s._deviceAddress OUTPUT_PORT_REGISTER
              (CA9500.digitalWrite_arr simWire arr s wn).2.1._outputValue wn).2
      ∧ (CA9500.digitalWrite_arr simWire arr s wn).2.1._outputValue.testBit i.val = arr i)
    ∧ ((CA9500.invertPin_arr simWire arr s wn).1 = false
      ∧ (CA9500.invertPin_arr simWire arr s wn).2.2.dev = wn.dev
      ∧ (CA9500.invertPin_arr simWire arr s wn).2.2
          = (writeTransaction simWire s._deviceAddress POLARITY_INVERSION_REGISTER
              (CA9500.invertPin_arr simWire arr s wn).2.1._portInverted wn).2
      ∧ (CA9500.invertPin_arr simWire arr s wn).2.1._portInverted.testBit i.val = arr i)
    ∧ ((CA9500.pinMode_arr simWire arr s wn).1.1 = false
      ∧ (CA9500.pinMode_arr simWire arr s wn).2.2.dev = wn.dev
      ∧ (CA9500.pinMode_arr simWire arr s wn).2.2
          = (writeTransaction simWire s._deviceAddress CONFIGURATION_REGISTER
              (CA9500.pinMode_arr simWire arr s wn).2.1._portMode wn).2
      ∧ (CA9500.pinMode_arr simWire arr s wn).2.1._portMode.testBit i.val = !arr i)
    ∧ ((CA9500.invertPin W b v s w).2.2
          = (writeTransaction W s._deviceAddress POLARITY_INVERSION_REGISTER (CA9500.invertPin W b v s w).2.1._portInverted w).2
      ∧ (CA9500.invertPin W b v s w).1
          = decide ((writeTransaction W s._deviceAddress POLARITY_INVERSION_REGISTER
              (CA9500.invertPin W b v s w).2.1._portInverted w).1 = 0))
    ∧ ((CA9500.pinMode W b v s w).2.2
          = (writeTransaction W s._deviceAddress CONFIGURATION_REGISTER (CA9500.pinMode W b v s w).2.1._portMode w).2
      ∧ (CA9500.pinMode W b v s w).1
          = decide ((writeTransaction W s._deviceAddress CONFIGURATION_REGISTER
              (CA9500.pinMode W b v s w).2.1._portMode w).1 = 0))
    ∧ ((CA9500.digitalWrite_arr W arr s w).2.2
          = (writeTransaction W s._deviceAddress OUTPUT_PORT_REGISTER (CA9500.digitalWrite_arr W arr s w).2.1._outputValue w).2
      ∧ (CA9500.digitalWrite_arr W arr s w).1
          = decide ((writeTransaction W s._deviceAddress OUTPUT_PORT_REGISTER
              (CA9500.digitalWrite_arr W arr s w).2.1._outputValue w).1 = 0))
    ∧ ((CA9500.invertPin_arr W arr s w).2.2
          = (writeTransaction W s._deviceAddress POLARITY_INVERSION_REGISTER (CA9500.invertPin_arr W arr s w).2.1._portInverted w).2
      ∧ (CA9500.invertPin_arr W arr s w).1
          = decide ((writeTransaction W s._deviceAddress POLARITY_INVERSION_REGISTER
              (CA9500.invertPin_arr W arr s w).2.1._portInverted w).1 = 0))
    ∧ ((CA9500.pinMode_arr W arr s w).2.2
          = (writeTransaction W s._deviceAddress CONFIGURATION_REGISTER (CA9500.pinMode_arr W arr s w).2.1._portMode w).2
      ∧ (CA9500.pinMode_arr W arr s w).1.1
          = decide ((writeTransaction W s._deviceAddress CONFIGURATION_REGISTER
              (CA9500.pinMode_arr W arr s w).2.1._portMode w).1 = 0)) := by
  have hst : ∀ reg val, writeTransaction simWire s._deviceAddress reg val wn
      = (2, { dev := wn.dev, txAddress := s._deviceAddress, txBuffer := [],
              rxBuffer := wn.rxBuffer }) :=
    fun reg val => sim_writeTransaction_nack wn s._deviceAddress reg val hnack
  refine ⟨⟨?_, ?_, ?_, ?_, ?_⟩,
    ⟨?_, ?_, CA9500.invertPin_wire simWire b v s wn, ?_⟩,
    ⟨?_, ?_, CA9500.pinMode_wire simWire b v s wn, ?_⟩,
    ⟨?_, ?_, CA9500.digitalWrite_arr_wire simWire arr s wn, ?_⟩,
    ⟨?_, ?_, CA9500.invertPin_arr_wire simWire arr s wn, ?_⟩,
    ⟨?_, ?_, CA9500.pinMode_arr_wire simWire arr s wn, ?_⟩,
    ⟨CA9500.invertPin_wire W b v s w, CA9500.invertPin_ret W b v s w⟩,
    ⟨CA9500.pinMode_wire W b v s w, CA9500.pinMode_ret W b v s w⟩,
    ⟨CA9500.digitalWrite_arr_wire W arr s w, CA9500.digitalWrite_arr_ret W arr s w⟩,
    ⟨CA9500.invertPin_arr_wire W arr s w, CA9500.invertPin_arr_ret W arr s w⟩,
    ⟨CA9500.pinMode_arr_wire W arr s w, CA9500.pinMode_arr_ret W arr s w⟩⟩
  · rw [CA9500.invertPin_drv, CA9500.invertPin_drv]
  · rw [CA9500.pinMode_drv, CA9500.pinMode_drv]
  · rw [CA9500.digitalWrite_arr_drv, CA9500.digitalWrite_arr_drv]
  · rw [CA9500.invertPin_arr_drv, CA9500.invertPin_arr_drv]
  · rw [(CA9500.pinMode_arr_drv W arr s w).1, (CA9500.pinMode_arr_drv V arr s x).1]
  · rw [CA9500.invertPin_ret, hst]
    rfl
  · rw [CA9500.invertPin_wire, hst]
  · rw [CA9500.invertPin_drv]
    simp [testBit_patch _ _ _ _ hb]
  · rw [CA9500.pinMode_ret, hst]
    rfl
  · rw [CA9500.pinMode_wire, hst]
  · rw [CA9500.pinMode_drv]
    simp [testBit_patch _ _ _ _ hb]
  · rw [CA9500.digitalWrite_arr_ret, hst]
    rfl
  · rw [CA9500.digitalWrite_arr_wire, hst]
  · rw [CA9500.digitalWrite_arr_drv]
    exact testBit_pack_loop arr i
  · rw [CA9500.invertPin_arr_ret, hst]
    rfl
  · rw [CA9500.invertPin_arr_wire, hst]
  · rw [CA9500.invertPin_arr_drv]
    exact testBit_pack_loop arr i
  · rw [CA9500.pinMode_arr_ret, hst]
    rfl
  · rw [CA9500.pinMode_arr_wire, hst]
  · rw [(CA9500.pinMode_arr_drv simWire arr s wn).1]
    exact testBit_pack_loop (fun j => !arr j) i

/-- C18 at a concrete input: bit 1 and the array `exArr` written from `exDrv`,
once on `exWire`, where `exDev` answers, and on `farWire`, where nothing
answers; element 3 of the array is observed. -/
theorem shadow_updated_before_acknowledge_witness :
    (1 < 8 ∧ farWire.dev.address ≠ exDrv._deviceAddress)
    ∧ (((CA9500.invertPin simWire 1 true exDrv exWire).2.1._portInverted = (CA9500.invertPin simWire 1 true exDrv farWire).2.1._portInverted
        ∧ (CA9500.pinMode simWire 1 true exDrv exWire).2.1._portMode = (CA9500.pinMode simWire 1 true exDrv farWire).2.1._portMode
        ∧ (CA9500.digitalWrite_arr simWire exArr exDrv exWire).2.1._outputValue
            = (CA9500.digitalWrite_arr simWire exArr exDrv farWire).2.1._outputValue
        ∧ (CA9500.invertPin_arr simWire exArr exDrv exWire).2.1._portInverted
            = (CA9500.invertPin_arr simWire exArr exDrv farWire).2.1._portInverted
        ∧ (CA9500.pinMode_arr simWire exArr exDrv exWire).2.1._portMode
            = (CA9500.pinMode_arr simWire exArr exDrv farWire).2.1._portMode)
      ∧ ((CA9500.invertPin simWire 1 true exDrv farWire).1 = false
        ∧ (CA9500.invertPin simWire 1 true exDrv farWire).2.2.dev = farWire.dev
        ∧ (CA9500.invertPin simWire 1 true exDrv farWire).2.2
            = (writeTransaction simWire exDrv._deviceAddress POLARITY_INVERSION_REGISTER
                (CA9500.invertPin simWire 1 true exDrv farWire).2.1._portInverted farWire).2
        ∧ (CA9500.invertPin simWire 1 true exDrv farWire).2.1._portInverted.testBit 1 = true)
      ∧ ((CA9500.pinMode simWire 1 true exDrv farWire).1 = false
        ∧ (CA9500.pinMode simWire 1 true exDrv farWire).2.2.dev = farWire.dev
        ∧ (CA9500.pinMode simWire 1 true exDrv farWire).2.2
            = (writeTransaction simWire exDrv._deviceAddress CONFIGURATION_REGISTER
                (CA9500.pinMode simWire 1 true exDrv farWire).2.1._portMode farWire).2
        ∧ (CA9500.pinMode simWire 1 true exDrv farWire).2.1._portMode.testBit 1 = !true)
      ∧ ((CA9500.digitalWrite_arr simWire exArr exDrv farWire).1 = false
        ∧ (CA9500.digitalWrite_arr simWire exArr exDrv farWire).2.2.dev = farWire.dev
        ∧ (CA9500.digitalWrite_arr simWire exArr exDrv farWire).2.2
            = (writeTransaction simWire exDrv._deviceAddress OUTPUT_PORT_REGISTER
                (CA9500.digitalWrite_arr simWire exArr exDrv farWire).2.1._outputValue farWire).2
        ∧ (CA9500.digitalWrite_arr simWire exArr exDrv farWire).2.1._outputValue.testBit (3 : Fin 8).val = exArr 3)
      ∧ ((CA9500.invertPin_arr simWire exArr exDrv farWire).1 = false
        ∧ (CA9500.invertPin_arr simWire exArr exDrv farWire).2.2.dev = farWire.dev
        ∧ (CA9500.invertPin_arr simWire exArr exDrv farWire).2.2
            = (writeTransaction simWire exDrv._deviceAddress POLARITY_INVERSION_REGISTER
                (CA9500.invertPin_arr simWire exArr exDrv farWire).2.1._portInverted farWire).2
        ∧ (CA9500.invertPin_arr simWire exArr exDrv farWire).2.1._portInverted.testBit (3 : Fin 8).val = exArr 3)
      ∧ ((CA9500.pinMode_arr simWire exArr exDrv farWire).1.1 = false
        ∧ (CA9500.pinMode_arr simWire exArr exDrv farWire).2.2.dev = farWire.dev
        ∧ (CA9500.pinMode_arr simWire exArr exDrv farWire).2.2
            = (writeTransaction simWire exDrv._deviceAddress CONFIGURATION_REGISTER
                (CA9500.pinMode_arr simWire exArr exDrv farWire).2.1._portMode farWire).2
        ∧ (CA9500.pinMode_arr simWire exArr exDrv farWire).2.1._portMode.testBit (3 : Fin 8).val = !exArr 3)
      ∧ ((CA9500.invertPin simWire 1 true exDrv exWire).2.2
            = (writeTransaction simWire exDrv._deviceAddress POLARITY_INVERSION_REGISTER (CA9500.invertPin simWire 1 true exDrv exWire).2.1._portInverted exWire).2
        ∧ (CA9500.invertPin simWire 1 true exDrv exWire).1
            = decide ((writeTransaction simWire exDrv._deviceAddress POLARITY_INVERSION_REGISTER
                (CA9500.invertPin simWire 1 true exDrv exWire).2.1._portInverted exWire).1 = 0))
      ∧ ((CA9500.pinMode simWire 1 true exDrv exWire).2.2
            = (writeTransaction simWire exDrv._deviceAddress CONFIGURATION_REGISTER (CA9500.pinMode simWire 1 true exDrv exWire).2.1._portMode exWire).2
        ∧ (CA9500.pinMode simWire 1 true exDrv exWire).1
            = decide ((writeTransaction simWire exDrv._deviceAddress CONFIGURATION_REGISTER
                (CA9500.pinMode simWire 1 true exDrv exWire).2.1._portMode exWire).1 = 0))
      ∧ ((CA9500.digitalWrite_arr simWire exArr exDrv exWire).2.2
            = (writeTransaction simWire exDrv._deviceAddress OUTPUT_PORT_REGISTER (CA9500.digitalWrite_arr simWire exArr exDrv exWire).2.1._outputValue exWire).2
        ∧ (CA9500.digitalWrite_arr simWire exArr exDrv exWire).1
            = decide ((writeTransaction simWire exDrv._deviceAddress OUTPUT_PORT_REGISTER
                (CA9500.digitalWrite_arr simWire exArr exDrv exWire).2.1._outputValue exWire).1 = 0))
      ∧ ((CA9500.invertPin_arr simWire exArr exDrv exWire).2.2
            = (writeTransaction simWire exDrv._deviceAddress POLARITY_INVERSION_REGISTER (CA9500.invertPin_arr simWire exArr exDrv exWire).2.1._portInverted exWire).2
        ∧ (CA9500.invertPin_arr simWire exArr exDrv exWire).1
            = decide ((writeTransaction simWire exDrv._deviceAddress POLARITY_INVERSION_REGISTER
                (CA9500.invertPin_arr simWire exArr exDrv exWire).2.1._portInverted exWire).1 = 0))
      ∧ ((CA9500.pinMode_arr simWire exArr exDrv exWire).2.2
            = (writeTransaction simWire exDrv._deviceAddress CONFIGURATION_REGISTER (CA9500.pinMode_arr simWire exArr exDrv exWire).2.1._portMode exWire).2
        ∧ (CA9500.pinMode_arr simWire exArr exDrv exWire).1.1
            = decide ((writeTransaction simWire exDrv._deviceAddress CONFIGURATION_REGISTER
                (CA9500.pinMode_arr simWire exArr exDrv exWire).2.1._portMode exWire).1 = 0))) :=
  ⟨⟨by decide, by decide⟩,
    shadow_updated_before_acknowledge simWire simWire exDrv exWire farWire farWire 1 true exArr
      3 (by decide) (by decide)⟩

/-! ## digitalWrite after an unacknowledged read -/

/-- Patching bit `b` of the byte 0 gives `v << b`. -/
theorem patch_zero (b : Nat) (v : Bool) (hb : b < 8) :
    u8 (u8 (0 &&& bnot (shl 1 b)) ||| shl v.toNat b) = v.toNat <<< b := by
  interval_cases b <;> cases v <;> rfl

theorem CA9500.digitalWrite_ret {β : Type} (W : TwoWire β) (b : Nat) (v : Bool) (s : CA9500)
    (w : β) :
    (CA9500.digitalWrite W b v s w).1
      = decide ((writeTransaction W s._deviceAddress OUTPUT_PORT_REGISTER
          (CA9500.digitalWrite W b v s w).2.1._outputValue
          (CA9500.readRegister W INPUT_PORT_REGISTER s w).2.2).1 = 0) := by
  rw [CA9500.digitalWrite_drv]
  simp only [CA9500.digitalWrite, CA9500.writeRegister_ret, CA9500.readRegister_drv]

/-- C19. When the read request for the Input Port register inside
`digitalWrite(b, v)` receives no byte, `readRegister` returns 0 and
`digitalWrite` goes on to run the write transaction to the Output Port
register with the byte `v << b`, whose bits other than `b` are all 0; the
output shadow holds that byte. -/
theorem digitalWrite_after_failed_read {β : Type} (W : TwoWire β) (s : CA9500) (w : β)
    (b j : Nat) (v : Bool) (hb : b < 8) (hj : j < 8) (hjb : j ≠ b)
    (hfail : (W.requestFrom s._deviceAddress 1
      (W.endTransmission (W.write INPUT_PORT_REGISTER
        (W.beginTransmission s._deviceAddress w))).2).1 = 0) :
    (CA9500.readRegister W INPUT_PORT_REGISTER s w).1 = 0
    ∧ (CA9500.digitalWrite W b v s w).2.2
        = (writeTransaction W s._deviceAddress OUTPUT_PORT_REGISTER (v.toNat <<< b)
            (CA9500.readRegister W INPUT_PORT_REGISTER s w).2.2).2
    ∧ (CA9500.digitalWrite W b v s w).1
        = decide ((writeTransaction W s._deviceAddress OUTPUT_PORT_REGISTER (v.toNat <<< b)
            (CA9500.readRegister W INPUT_PORT_REGISTER s w).2.2).1 = 0)
    ∧ (CA9500.digitalWrite W b v s w).2.1._outputValue = v.toNat <<< b
    ∧ (v.toNat <<< b).testBit b = v
    ∧ (v.toNat <<< b).testBit j = false := by
  have hread : (CA9500.readRegister W INPUT_PORT_REGISTER s w).1 = 0 := by
    simp only [CA9500.readRegister]
    split
    · next h => exact absurd hfail h
    · rfl
  have hbyte : (CA9500.digitalWrite W b v s w).2.1._outputValue = v.toNat <<< b := by
    rw [CA9500.digitalWrite_drv]
    simp only [hread]
    exact patch_zero b v hb
  have hbits : ∀ k, k < 8 → (v.toNat <<< b).testBit k = if k = b then v else false := by
    intro k hk
    rw [← patch_zero b v hb, testBit_patch _ _ _ _ hk, Nat.zero_testBit]
  refine ⟨hread, ?_, ?_, hbyte, ?_, ?_⟩
  · rw [CA9500.digitalWrite_wire, hbyte]
  · rw [CA9500.digitalWrite_ret, hbyte]
  · rw [hbits b hb, if_pos rfl]
  · rw [hbits j hj, if_neg hjb]

/-- C19 at a concrete input: `digitalWrite(3, true)` from `exDrv` on `farWire`,
where nothing answers the read request. -/
theorem digitalWrite_after_failed_read_witness :
    (3 < 8 ∧ 5 < 8 ∧ 5 ≠ 3
      ∧ (simWire.requestFrom exDrv._deviceAddress 1
          (simWire.endTransmission (simWire.write INPUT_PORT_REGISTER
            (simWire.beginTransmission exDrv._deviceAddress farWire))).2).1 = 0)
    ∧ ((CA9500.readRegister simWire INPUT_PORT_REGISTER exDrv farWire).1 = 0
      ∧ (CA9500.digitalWrite simWire 3 true exDrv farWire).2.2
          = (writeTransaction simWire exDrv._deviceAddress OUTPUT_PORT_REGISTER
              (true.toNat <<< 3)
              (CA9500.readRegister simWire INPUT_PORT_REGISTER exDrv farWire).2.2).2
      ∧ (CA9500.digitalWrite simWire 3 true exDrv farWire).1
          = decide ((writeTransaction simWire exDrv._deviceAddress OUTPUT_PORT_REGISTER
              (true.toNat <<< 3)
              (CA9500.readRegister simWire INPUT_PORT_REGISTER exDrv farWire).2.2).1 = 0)
      ∧ (CA9500.digitalWrite simWire 3 true exDrv farWire).2.1._outputValue = true.toNat <<< 3
      ∧ (true.toNat <<< 3).testBit 3 = true
      ∧ (true.toNat <<< 3).testBit 5 = false) :=
  ⟨⟨by decide, by decide, by decide, by decide⟩,
    digitalWrite_after_failed_read simWire exDrv farWire 3 5 true
      (by decide) (by decide) (by decide) (by decide)⟩

/-! ## Single-pin writes on distinct bits commute -/

/-- Two patches of distinct bits of a `uint8_t` give the same byte in either order. -/
theorem patch_comm (x b c : Nat) (u v : Bool) (hbc : b ≠ c) :
    u8 (u8 (u8 (u8 (x &&& bnot (shl 1 b)) ||| shl u.toNat b) &&& bnot (shl 1 c)) ||| shl v.toNat c)
      = u8 (u8 (u8 (u8 (x &&& bnot (shl 1 c)) ||| shl v.toNat c) &&& bnot (shl 1 b))
          ||| shl u.toNat b) := by
  apply eq_of_testBit_lt_8 (u8_lt _) (u8_lt _)
  intro j hj
  rw [testBit_patch _ _ _ _ hj, testBit_patch _ _ _ _ hj, testBit_patch _ _ _ _ hj,
    testBit_patch _ _ _ _ hj]
  by_cases h1 : j = b
  · have h2 : j ≠ c := fun h => hbc (h1.symm.trans h)
    simp [h1, h2, hbc]
  · simp [h1]

/-- C20. For distinct bit indices `b` and `c` in 0..7, `invertPin(b, u)` then
`invertPin(c, v)` leaves the same driver state, hence the same polarity shadow,
as `invertPin(c, v)` then `invertPin(b, u)`, the last transaction of either
order sends that shadow to the Polarity Inversion register, and an answering
simulated device ends with the same Polarity Inversion register; likewise for
`pinMode`, the mode shadow and the Configuration register. -/
theorem single_pin_writes_commute {β : Type} (W : TwoWire β) (s : CA9500) (w : β)
    (ws : SimWire) (b c : Nat) (u v : Bool) (hb : b < 8) (hc : c < 8) (hbc : b ≠ c)
    (hack : ws.dev.address = s._deviceAddress) :
    ((CA9500.invertPin W c v (CA9500.invertPin W b u s w).2.1
          (CA9500.invertPin W b u s w).2.2).2.1
        = (CA9500.invertPin W b u (CA9500.invertPin W c v s w).2.1
            (CA9500.invertPin W c v s w).2.2).2.1
      ∧ (CA9500.invertPin W c v (CA9500.invertPin W b u s w).2.1
            (CA9500.invertPin W b u s w).2.2).2.2
          = (writeTransaction W s._deviceAddress POLARITY_INVERSION_REGISTER
              (CA9500.invertPin W c v (CA9500.invertPin W b u s w).2.1
                (CA9500.invertPin W b u s w).2.2).2.1._portInverted
              (CA9500.invertPin W b u s w).2.2).2
      ∧ (CA9500.invertPin W b u (CA9500.invertPin W c v s w).2.1
            (CA9500.invertPin W c v s w).2.2).2.2
          = (writeTransaction W s._deviceAddress POLARITY_INVERSION_REGISTER
              (CA9500.invertPin W c v (CA9500.invertPin W b u s w).2.1
                (CA9500.invertPin W b u s w).2.2).2.1._portInverted
              (CA9500.invertPin W c v s w).2.2).2
      ∧ (CA9500.invertPin simWire c v (CA9500.invertPin simWire b u s ws).2.1
            (CA9500.invertPin simWire b u s ws).2.2).2.2.dev.polarity
          = (CA9500.invertPin simWire b u (CA9500.invertPin simWire c v s ws).2.1
              (CA9500.invertPin simWire c v s ws).2.2).2.2.dev.polarity)
    ∧ ((CA9500.pinMode W c v (CA9500.pinMode W b u s w).2.1 (CA9500.pinMode W b u s w).2.2).2.1
        = (CA9500.pinMode W b u (CA9500.pinMode W c v s w).2.1
            (CA9500.pinMode W c v s w).2.2).2.1
      ∧ (CA9500.pinMode W c v (CA9500.pinMode W b u s w).2.1
            (CA9500.pinMode W b u s w).2.2).2.2
          = (writeTransaction W s._deviceAddress CONFIGURATION_REGISTER
              (CA9500.pinMode W c v (CA9500.pinMode W b u s w).2.1
                (CA9500.pinMode W b u s w).2.2).2.1._portMode
              (CA9500.pinMode W b u s w).2.2).2
      ∧ (CA9500.pinMode W b u (CA9500.pinMode W c v s w).2.1
            (CA9500.pinMode W c v s w).2.2).2.2
          = (writeTransaction W s._deviceAddress CONFIGURATION_REGISTER
              (CA9500.pinMode W c v (CA9500.pinMode W b u s w).2.1
                (CA9500.pinMode W b u s w).2.2).2.1._portMode
              (CA9500.pinMode W c v s w).2.2).2
      ∧ (CA9500.pinMode simWire c v (CA9500.pinMode simWire b u s ws).2.1
            (CA9500.pinMode simWire b u s ws).2.2).2.2.dev.config
          = (CA9500.pinMode simWire b u (CA9500.pinMode simWire c v s ws).2.1
              (CA9500.pinMode simWire c v s ws).2.2).2.2.dev.config) := by
  have _hb : b < 8 := hb
  have _hc : c < 8 := hc
  have hinv : ∀ {γ : Type} (V : TwoWire γ) (x y z : γ),
      (CA9500.invertPin V c v (CA9500.invertPin V b u s x).2.1 y).2.1
        = (CA9500.invertPin V b u (CA9500.invertPin V c v s x).2.1 z).2.1 := by
    intro γ V x y z
    simp only [CA9500.invertPin_drv, patch_comm _ b c u v hbc]
  have hmode : ∀ {γ : Type} (V : TwoWire γ) (x y z : γ),
      (CA9500.pinMode V c v (CA9500.pinMode V b u s x).2.1 y).2.1
        = (CA9500.pinMode V b u (CA9500.pinMode V c v s x).2.1 z).2.1 := by
    intro γ V x y z
    simp only [CA9500.pinMode_drv, patch_comm _ b c (!u) (!v) hbc]
  have hadr1 : ∀ (e : Bool) (k : Nat), (CA9500.invertPin simWire k e s ws).2.2.dev.address
      = (CA9500.invertPin simWire k e s ws).2.1._deviceAddress := by
    intro e k
    rw [(sim_invertPin_polarity ws s k e hack).2, hack, CA9500.invertPin_drv]
  have hadr2 : ∀ (e : Bool) (k : Nat), (CA9500.pinMode simWire k e s ws).2.2.dev.address
      = (CA9500.pinMode simWire k e s ws).2.1._deviceAddress := by
    intro e k
    rw [(sim_pinMode_config ws s k e hack).2, hack, CA9500.pinMode_drv]
  refine ⟨⟨hinv W w _ _, ?_, ?_, ?_⟩, ⟨hmode W w _ _, ?_, ?_, ?_⟩⟩
  · rw [CA9500.invertPin_wire, CA9500.invertPin_drv W b u s w]
  · rw [CA9500.invertPin_wire, hinv W w _ (CA9500.invertPin W c v s w).2.2,
      CA9500.invertPin_drv W c v s w]
  · rw [(sim_invertPin_polarity _ _ c v (hadr1 u b)).1,
      (sim_invertPin_polarity _ _ b u (hadr1 v c)).1, hinv simWire ws _ _]
  · rw [CA9500.pinMode_wire, CA9500.pinMode_drv W b u s w]
  · rw [CA9500.pinMode_wire, hmode W w _ (CA9500.pinMode W c v s w).2.2,
      CA9500.pinMode_drv W c v s w]
  · rw [(sim_pinMode_config _ _ c v (hadr2 u b)).1,
      (sim_pinMode_config _ _ b u (hadr2 v c)).1, hmode simWire ws _ _]

/-- C20 at a concrete input: bits 1 and 6 written from `exDrv` on `exDev`. -/
theorem single_pin_writes_commute_witness :
    (1 < 8 ∧ 6 < 8 ∧ 1 ≠ 6 ∧ exWire.dev.address = exDrv._deviceAddress)
    ∧ (((CA9500.invertPin simWire 6 false (CA9500.invertPin simWire 1 true exDrv exWire).2.1
            (CA9500.invertPin simWire 1 true exDrv exWire).2.2).2.1
          = (CA9500.invertPin simWire 1 true (CA9500.invertPin simWire 6 false exDrv exWire).2.1
              (CA9500.invertPin simWire 6 false exDrv exWire).2.2).2.1
        ∧ (CA9500.invertPin simWire 6 false (CA9500.invertPin simWire 1 true exDrv exWire).2.1
              (CA9500.invertPin simWire 1 true exDrv exWire).2.2).2.2
            = (writeTransaction simWire exDrv._deviceAddress POLARITY_INVERSION_REGISTER
                (CA9500.invertPin simWire 6 false (CA9500.invertPin simWire 1 true exDrv exWire).2.1
                  (CA9500.invertPin simWire 1 true exDrv exWire).2.2).2.1._portInverted
                (CA9500.invertPin simWire 1 true exDrv exWire).2.2).2
        ∧ (CA9500.invertPin simWire 1 true (CA9500.invertPin simWire 6 false exDrv exWire).2.1
              (CA9500.invertPin simWire 6 false exDrv exWire).2.2).2.2
            = (writeTransaction simWire exDrv._deviceAddress POLARITY_INVERSION_REGISTER
                (CA9500.invertPin simWire 6 false (CA9500.invertPin simWire 1 true exDrv exWire).2.1
                  (CA9500.invertPin simWire 1 true exDrv exWire).2.2).2.1._portInverted
                (CA9500.invertPin simWire 6 false exDrv exWire).2.2).2
        ∧ (CA9500.invertPin simWire 6 false (CA9500.invertPin simWire 1 true exDrv exWire).2.1
              (CA9500.invertPin simWire 1 true exDrv exWire).2.2).2.2.dev.polarity
            = (CA9500.invertPin simWire 1 true (CA9500.invertPin simWire 6 false exDrv exWire).2.1
                (CA9500.invertPin simWire 6 false exDrv exWire).2.2).2.2.dev.polarity)
      ∧ ((CA9500.pinMode simWire 6 false (CA9500.pinMode simWire 1 true exDrv exWire).2.1 (CA9500.pinMode simWire 1 true exDrv exWire).2.2).2.1
          = (CA9500.pinMode simWire 1 true (CA9500.pinMode simWire 6 false exDrv exWire).2.1
              (CA9500.pinMode simWire 6 false exDrv exWire).2.2).2.1
        ∧ (CA9500.pinMode simWire 6 false (CA9500.pinMode simWire 1 true exDrv exWire).2.1
              (CA9500.pinMode simWire 1 true exDrv exWire).2.2).2.2
            = (writeTransaction simWire exDrv._deviceAddress CONFIGURATION_REGISTER
                (CA9500.pinMode simWire 6 false (CA9500.pinMode simWire 1 true exDrv exWire).2.1
                  (CA9500.pinMode simWire 1 true exDrv exWire).2.2).2.1._portMode
                (CA9500.pinMode simWire 1 true exDrv exWire).2.2).2
        ∧ (CA9500.pinMode simWire 1 true (CA9500.pinMode simWire 6 false exDrv exWire).2.1
              (CA9500.pinMode simWire 6 false exDrv exWire).2.2).2.2
            = (writeTransaction simWire exDrv._deviceAddress CONFIGURATION_REGISTER
                (CA9500.pinMode simWire 6 false (CA9500.pinMode simWire 1 true exDrv exWire).2.1
                  (CA9500.pinMode simWire 1 true exDrv exWire).2.2).2.1._portMode
                (CA9500.pinMode simWire 6 false exDrv exWire).2.2).2
        ∧ (CA9500.pinMode simWire 6 false (CA9500.pinMode simWire 1 true exDrv exWire).2.1
              (CA9500.pinMode simWire 1 true exDrv exWire).2.2).2.2.dev.config
            = (CA9500.pinMode simWire 1 true (CA9500.pinMode simWire 6 false exDrv exWire).2.1
                (CA9500.pinMode simWire 6 false exDrv exWire).2.2).2.2.dev.config)) :=
  ⟨⟨by decide, by decide, by decide, rfl⟩,
    single_pin_writes_commute simWire exDrv exWire exWire 1 6 true false
      (by decide) (by decide) (by decide) rfl⟩

end CA9500Driver
